import Mathlib

/-!
Verification of the PIP identity ingester (`src/core/ingester.py`).

The Python module works on JSON-decoded values (`dict` / `list` / `str` /
numbers / booleans / `None`).  We embed those values as the inductive type
`Json` below, with objects as association lists (a Python `dict` preserves
insertion order; keys of a dict obtained from JSON decoding are unique).

Python operations that can raise (`x.get` on a non-dict, `'k' in x` on a
non-container, `", ".join` on non-strings, `**x` on a non-mapping, string
indexing by name, ...) are modelled in the `Except PyErr` monad, so that an
exception escaping a function is visible as an `Except.error`.
-/

namespace PPP

/-- A JSON-decoded Python value.  Numbers are modelled as integers (every
number appearing in the checks of the source is compared only against `0`);
Python `bool` is a separate constructor because, although `bool` is an `int`
subtype for `isinstance`, JSON decoding never confuses the two. -/
inductive Json where
  | null
  | bool (b : Bool)
  | num (n : Int)
  | str (s : String)
  | arr (elems : List Json)
  | obj (fields : List (String × Json))

/-- Python objects (dicts) as association lists. -/
abbrev Obj := List (String × Json)

/-- The kinds of exception the translated code can raise. -/
inductive PyErr where
  | valueError (msg : String)
  | typeError
  | attributeError
  | keyError
deriving Repr, DecidableEq

/-- First-match lookup in an object, the behaviour of `d[k]` / `d.get(k)` on a
Python dict (whose keys are unique, so first match is the only match). -/
def olookup : Obj → String → Option Json
  | [], _ => none
  | (k', v) :: rest, k => if k' = k then some v else olookup rest k

/-- Python truthiness (`bool(x)`) of a JSON-decoded value. -/
def pyTruthy : Json → Bool
  | .null => false
  | .bool b => b
  | .num n => n ≠ 0
  | .str s => s ≠ ""
  | .arr xs => !xs.isEmpty
  | .obj o => !o.isEmpty

/-- `isinstance(x, dict)`. -/
def isObjB : Json → Bool
  | .obj _ => true
  | _ => false

/-- `**x` in a dict literal: requires a mapping, else `TypeError`. -/
def asObj : Json → Except PyErr Obj
  | .obj o => .ok o
  | _ => .error .typeError

/-- `x.get(k, d)`: raises `AttributeError` unless `x` is a dict. -/
def pyGetAttr (j : Json) (k : String) (d : Json) : Except PyErr Json :=
  match j with
  | .obj o => .ok ((olookup o k).getD d)
  | _ => .error .attributeError

/-- Python `k in x` for a string key `k`: key lookup on dicts, substring test
on strings, element-wise `==` on lists, `TypeError` on non-containers. -/
def strContainsSub : List Char → List Char → Bool
  | [], n => n.isEmpty
  | c :: t, n => List.isPrefixOf n (c :: t) || strContainsSub t n

def pyContains (j : Json) (k : String) : Except PyErr Bool :=
  match j with
  | .obj o => .ok (olookup o k).isSome
  | .str s => .ok (strContainsSub s.toList k.toList)
  | .arr xs => .ok (xs.any fun x => match x with | .str t => t = k | _ => false)
  | _ => .error .typeError

/-- Python `x[k]` for a string key `k`: value on dicts (`KeyError` when the
key is missing), `TypeError` on strings, lists and everything else. -/
def pyIndex (j : Json) (k : String) : Except PyErr Json :=
  match j with
  | .obj o => match olookup o k with
      | some v => .ok v
      | none => .error .keyError
  | _ => .error .typeError

/-! ### Character-level helpers for the regex and date checks -/

def isDig (c : Char) : Bool := '0' ≤ c && c ≤ '9'

def isLowerAZ (c : Char) : Bool := 'a' ≤ c && c ≤ 'z'

def isUpperAZ (c : Char) : Bool := 'A' ≤ c && c ≤ 'Z'

def digVal (c : Char) : Nat := c.toNat - '0'.toNat

/-- Splitting a character list at `'.'`, for `^\d+\.\d+\.\d+$`. -/
def splitOnDot : List Char → List (List Char)
  | [] => [[]]
  | '.' :: t => [] :: splitOnDot t
  | c :: t =>
      match splitOnDot t with
      | h :: r => (c :: h) :: r
      | [] => [[c]]

/-- `re.match(r'^\d+\.\d+\.\d+$', s)` succeeds. -/
def semverB (l : List Char) : Bool :=
  match splitOnDot l with
  | [a, b, c] =>
      !a.isEmpty && a.all isDig && !b.isEmpty && b.all isDig && !c.isEmpty && c.all isDig
  | _ => false

/-- `re.match(r'^[a-z]{2}(-[A-Z]{2})?$', s)` succeeds. -/
def langMatch : List Char → Bool
  | [a, b] => isLowerAZ a && isLowerAZ b
  | [a, b, '-', c, d] => isLowerAZ a && isLowerAZ b && isUpperAZ c && isUpperAZ d
  | _ => false

/-- `re.match(r'^[A-Z]{3}$', s)` succeeds. -/
def currencyMatch : List Char → Bool
  | [a, b, c] => isUpperAZ a && isUpperAZ b && isUpperAZ c
  | _ => false

/-! ### `datetime.fromisoformat` model

`_is_valid_iso8601` calls `datetime.fromisoformat(s.replace('Z', '+00:00'))`
and additionally requires a literal `'T'` in the original string.  We model
`fromisoformat` as a Boolean parser for
`YYYY-MM-DD[<sep>HH[:MM[:SS[.fff[fff]]]][±HH:MM[:SS]]]` with calendar-valid
dates, the accepted grammar of `datetime.fromisoformat`. -/

def twoDigitNum : List Char → Option (Nat × List Char)
  | a :: b :: rest =>
      if isDig a && isDig b then some (digVal a * 10 + digVal b, rest) else none
  | _ => none

def fourDigitNum : List Char → Option (Nat × List Char)
  | a :: b :: c :: d :: rest =>
      if isDig a && isDig b && isDig c && isDig d then
        some (((digVal a * 10 + digVal b) * 10 + digVal c) * 10 + digVal d, rest)
      else none
  | _ => none

def isLeapYear (y : Nat) : Bool := (y % 4 = 0 && y % 100 ≠ 0) || y % 400 = 0

def daysInMonth (y m : Nat) : Nat :=
  if m = 2 then (if isLeapYear y then 29 else 28)
  else if m = 4 || m = 6 || m = 9 || m = 11 then 30
  else 31

/-- A numeric UTC offset `HH:MM[:SS]` after the sign. -/
def parseOffsetTail (l : List Char) : Bool :=
  match twoDigitNum l with
  | some (hh, ':' :: r1) =>
      (match twoDigitNum r1 with
       | some (mm, r2) =>
           mm ≤ 59 && hh * 60 + mm < 1440 &&
           (match r2 with
            | [] => true
            | ':' :: r3 =>
                (match twoDigitNum r3 with
                 | some (ss, []) => ss ≤ 59
                 | _ => false)
            | _ => false)
       | none => false)
  | _ => false

def parseOffsetOpt : List Char → Bool
  | [] => true
  | '+' :: r => parseOffsetTail r
  | '-' :: r => parseOffsetTail r
  | _ => false

/-- After the seconds: optional fractional part (3 or 6 digits), then an
optional offset. -/
def parseTimeRest (l : List Char) : Bool :=
  match l with
  | '.' :: r =>
      let ds := r.takeWhile isDig
      (ds.length = 3 || ds.length = 6) && parseOffsetOpt (r.dropWhile isDig)
  | _ => parseOffsetOpt l

def parseTime (l : List Char) : Bool :=
  match twoDigitNum l with
  | some (hh, r1) =>
      hh ≤ 23 &&
      (match r1 with
       | ':' :: r2 =>
           (match twoDigitNum r2 with
            | some (mm, r3) =>
                mm ≤ 59 &&
                (match r3 with
                 | ':' :: r4 =>
                     (match twoDigitNum r4 with
                      | some (ss, r5) => ss ≤ 59 && parseTimeRest r5
                      | none => false)
                 | _ => parseOffsetOpt r3)
            | none => false)
       | _ => parseOffsetOpt r1)
  | none => false

def pyFromIso (l : List Char) : Bool :=
  match fourDigitNum l with
  | some (y, '-' :: r1) =>
      (match twoDigitNum r1 with
       | some (m, '-' :: r2) =>
           (match twoDigitNum r2 with
            | some (d, r3) =>
                1 ≤ y && 1 ≤ m && m ≤ 12 && 1 ≤ d && d ≤ daysInMonth y m &&
                (match r3 with
                 | [] => true
                 | _ :: time => parseTime time)
            | none => false)
       | _ => false)
  | _ => false

/-- `s.replace('Z', '+00:00')`. -/
def expandZ (l : List Char) : List Char :=
  match l with
  | [] => []
  | c :: t => (if c = 'Z' then ['+', '0', '0', ':', '0', '0'] else [c]) ++ expandZ t

/-- `_is_valid_iso8601` (lines 171-179): `False` for non-strings, otherwise
`fromisoformat(s.replace('Z','+00:00'))` must parse and `'T' in s`. -/
def _is_valid_iso8601 (j : Json) : Bool :=
  match j with
  | .str s => pyFromIso (expandZ s.toList) && s.toList.contains 'T'
  | _ => false

/-! ### Validator (`validate_identity`, lines 14-168) -/

/-- The result dict `{'valid': ..., 'errors': ...}`. -/
structure VResult where
  valid : Bool
  errors : List String
deriving Repr, DecidableEq

/-- Python `v in [list of string literals]`: only an equal string matches. -/
def isStrIn (v : Json) (allowed : List String) : Bool :=
  match v with
  | .str s => allowed.contains s
  | _ => false

/-- The `version` checks (lines 30-35). -/
def checkVersion : Option Json → List String
  | none => ["Missing required field: version"]
  | some (.str s) =>
      if semverB s.toList then []
      else ["Field \"version\" must follow semantic versioning (e.g., \"0.1.0\")"]
  | some _ => ["Field \"version\" must be a string"]

/-- One `metadata.created` / `metadata.updated` check: `'f' in metadata`,
then `_is_valid_iso8601(metadata['f'])`. -/
def isoFieldCheck (md : Json) (field missingMsg badMsg : String) :
    Except PyErr (List String) := do
  let has ← pyContains md field
  if has then do
    let v ← pyIndex md field
    pure (if _is_valid_iso8601 v then [] else [badMsg])
  else
    pure [missingMsg]

/-- The `metadata` checks (lines 37-49). -/
def checkMetadata : Option Json → Except PyErr (List String)
  | none => pure ["Missing required field: metadata"]
  | some md => do
      let c ← isoFieldCheck md "created" "Missing required field: metadata.created"
        "Field \"metadata.created\" must be a valid ISO 8601 date-time"
      let u ← isoFieldCheck md "updated" "Missing required field: metadata.updated"
        "Field \"metadata.updated\" must be a valid ISO 8601 date-time"
      pure (c ++ u)

/-- `if 'f' in sec and sec['f'] not in allowed: errors.append(msg)`. -/
def enumFieldCheck (sec : Json) (field : String) (allowed : List String)
    (msg : String) : Except PyErr (List String) := do
  let has ← pyContains sec field
  if has then do
    let v ← pyIndex sec field
    pure (if isStrIn v allowed then [] else [msg])
  else pure []

/-- `if 'f' in sec and not re.match(pattern, sec['f'])`: `re.match` raises
`TypeError` on a non-string argument. -/
def regexFieldCheck (sec : Json) (field : String) (matcher : List Char → Bool)
    (msg : String) : Except PyErr (List String) := do
  let has ← pyContains sec field
  if has then do
    let v ← pyIndex sec field
    match v with
    | .str s => pure (if matcher s.toList then [] else [msg])
    | _ => Except.error .typeError
  else pure []

/-- `", ".join(xs)`: `TypeError` on a non-string element. -/
def joinArgs : List Json → Except PyErr (List String)
  | [] => pure []
  | .str s :: rest => do pure (s :: (← joinArgs rest))
  | _ :: _ => Except.error .typeError

def joinComma : List String → String
  | [] => ""
  | [s] => s
  | s :: rest => s ++ ", " ++ joinComma rest

/-- The `notifications.channels` check (lines 107-114).  The comprehension
`[ch for ch in channels if ch not in valid_channels]` appears as the
`List.filter`; the source computes it once, which is observationally the
same as the repeated occurrence here. -/
def checkChannels (nt : Json) : Except PyErr (List String) := do
  let has ← pyContains nt "channels"
  if has then do
    let v ← pyIndex nt "channels"
    match v with
    | .arr xs =>
        if (xs.filter (fun ch => !(isStrIn ch ["in-app", "email", "push", "sms"]))).isEmpty then
          pure []
        else do
          let strs ← joinArgs (xs.filter (fun ch => !(isStrIn ch ["in-app", "email", "push", "sms"])))
          pure ["Invalid notification channels: " ++ joinComma strs]
    | _ => pure ["notifications.channels must be a list"]
  else pure []

/-- The `risk.maxTransactionAmount` check (lines 145-147).  Note that Python
`isinstance(x, (int, float))` is `True` for booleans (`bool` is a subtype of
`int`), and `True < 0` / `False < 0` are both `False`, so a boolean value
produces no error. -/
def checkMaxTransaction (rk : Json) : Except PyErr (List String) := do
  let has ← pyContains rk "maxTransactionAmount"
  if has then do
    let v ← pyIndex rk "maxTransactionAmount"
    pure (match v with
      | .num n =>
          if n < 0 then ["risk.maxTransactionAmount must be a non-negative number"] else []
      | .bool _ => []
      | _ => ["risk.maxTransactionAmount must be a non-negative number"])
  else pure []

/-- `if 'name' in preferences: ... validate sub-section ...`. -/
def sectionCheck (po : Obj) (name : String)
    (f : Json → Except PyErr (List String)) : Except PyErr (List String) :=
  match olookup po name with
  | none => pure []
  | some s => f s

/-- The `ui` block of `_validate_preferences` (lines 75-82). -/
def checkUiSection (ui : Json) : Except PyErr (List String) := do
  let a ← enumFieldCheck ui "theme" ["light", "dark", "auto", "high-contrast"]
    "Invalid ui.theme value"
  let b ← enumFieldCheck ui "density" ["compact", "comfortable", "spacious"]
    "Invalid ui.density value"
  let c ← enumFieldCheck ui "fontSize" ["small", "medium", "large", "xlarge"]
    "Invalid ui.fontSize value"
  pure (a ++ b ++ c)

/-- The `interaction` block (lines 85-92). -/
def checkInteractionSection (ia : Json) : Except PyErr (List String) := do
  let a ← enumFieldCheck ia "tone" ["formal", "casual", "friendly", "professional", "minimal"]
    "Invalid interaction.tone value"
  let b ← enumFieldCheck ia "verbosity" ["minimal", "moderate", "detailed", "verbose"]
    "Invalid interaction.verbosity value"
  let c ← enumFieldCheck ia "confirmationStyle" ["always", "destructive-only", "never"]
    "Invalid interaction.confirmationStyle value"
  pure (a ++ b ++ c)

/-- The `automation` block (lines 95-100). -/
def checkAutomationSection (au : Json) : Except PyErr (List String) := do
  let a ← enumFieldCheck au "level" ["none", "suggestions", "auto-approve-safe", "aggressive"]
    "Invalid automation.level value"
  let b ← enumFieldCheck au "maxAutomationScope" ["local", "session", "account", "global"]
    "Invalid automation.maxAutomationScope value"
  pure (a ++ b)

/-- The `notifications` block (lines 103-114). -/
def checkNotificationsSection (nt : Json) : Except PyErr (List String) := do
  let a ← enumFieldCheck nt "frequency" ["realtime", "batched", "digest", "off"]
    "Invalid notifications.frequency value"
  let b ← checkChannels nt
  pure (a ++ b)

/-- The `content` block (lines 117-126). -/
def checkContentSection (ct : Json) : Except PyErr (List String) := do
  let a ← regexFieldCheck ct "language" langMatch
    "Invalid content.language format (expected ISO 639-1)"
  let b ← enumFieldCheck ct "dateFormat" ["ISO", "US", "EU", "relative"]
    "Invalid content.dateFormat value"
  let c ← enumFieldCheck ct "timeFormat" ["12h", "24h"]
    "Invalid content.timeFormat value"
  let d ← regexFieldCheck ct "currency" currencyMatch
    "Invalid content.currency format (expected ISO 4217)"
  pure (a ++ b ++ c ++ d)

/-- The `privacy` block (lines 129-132). -/
def checkPrivacySection (pv : Json) : Except PyErr (List String) :=
  enumFieldCheck pv "dataSharing" ["none", "anonymized", "full"]
    "Invalid privacy.dataSharing value"

/-- The `accessibility` block (lines 135-138). -/
def checkAccessibilitySection (ac : Json) : Except PyErr (List String) :=
  enumFieldCheck ac "focusIndicators" ["minimal", "standard", "enhanced"]
    "Invalid accessibility.focusIndicators value"

/-- The `risk` block (lines 141-147). -/
def checkRiskSection (rk : Json) : Except PyErr (List String) := do
  let a ← enumFieldCheck rk "tolerance" ["conservative", "moderate", "aggressive"]
    "Invalid risk.tolerance value"
  let b ← checkMaxTransaction rk
  pure (a ++ b)

/-- `_validate_preferences` (lines 67-149). -/
def _validate_preferences (p : Json) : Except PyErr (List String) :=
  match p with
  | .obj po => do
      let uiE ← sectionCheck po "ui" checkUiSection
      let inE ← sectionCheck po "interaction" checkInteractionSection
      let auE ← sectionCheck po "automation" checkAutomationSection
      let ntE ← sectionCheck po "notifications" checkNotificationsSection
      let ctE ← sectionCheck po "content" checkContentSection
      let pvE ← sectionCheck po "privacy" checkPrivacySection
      let acE ← sectionCheck po "accessibility" checkAccessibilitySection
      let rkE ← sectionCheck po "risk" checkRiskSection
      pure (uiE ++ inE ++ auE ++ ntE ++ ctE ++ pvE ++ acE ++ rkE)
  | _ => pure ["Preferences must be a dictionary"]

/-- `_validate_behaviors` (lines 152-168). -/
def _validate_behaviors (b : Json) : Except PyErr (List String) :=
  match b with
  | .obj bo => do
      let a ← enumFieldCheck (.obj bo) "workflow"
        ["linear", "exploratory", "task-focused", "multi-tasking"]
        "Invalid behaviors.workflow value"
      let c ← enumFieldCheck (.obj bo) "learningStyle"
        ["tutorial", "examples", "trial-and-error", "documentation"]
        "Invalid behaviors.learningStyle value"
      let d ← enumFieldCheck (.obj bo) "decisionSpeed"
        ["deliberate", "balanced", "quick"]
        "Invalid behaviors.decisionSpeed value"
      pure (a ++ c ++ d)
  | _ => pure ["Behaviors must be a dictionary"]

/-- `if 'preferences' in identity: errors.extend(...)`: the sub-validator
runs only when the key is present. -/
def optCheck (f : Json → Except PyErr (List String)) : Option Json → Except PyErr (List String)
  | none => pure []
  | some x => f x

/-- The body of `validate_identity` once the input-type guard has passed;
it reads exactly the four recognized top-level keys. -/
def validateObjBody (vv mv pv bv : Option Json) : Except PyErr VResult := do
  let verE := checkVersion vv
  let metE ← checkMetadata mv
  let preE ← optCheck _validate_preferences pv
  let behE ← optCheck _validate_behaviors bv
  let errors := verE ++ metE ++ preE ++ behE
  pure ⟨errors.isEmpty, errors⟩

/-- `validate_identity` (lines 14-64).  `if not identity or not
isinstance(identity, dict)` treats a falsy value (including the empty dict)
and any non-dict as the single input-type failure. -/
def validate_identity (j : Json) : Except PyErr VResult :=
  if (pyTruthy j && isObjB j) = false then
    .ok ⟨false, ["Identity must be a dictionary"]⟩
  else
    match j with
    | .obj o =>
        validateObjBody (olookup o "version") (olookup o "metadata")
          (olookup o "preferences") (olookup o "behaviors")
    | _ => .ok ⟨false, ["Identity must be a dictionary"]⟩

/-! ### Normalizer (`normalize_identity`, lines 182-261) -/

/-- In-place update of one key of a dict, the behaviour of a later entry for
an existing key in a Python dict literal (the value is replaced, the key
keeps its original position; a fresh key is appended at the end). -/
def insertKV : Obj → String → Json → Obj
  | [], k, v => [(k, v)]
  | hd :: rest, k, v =>
      if hd.1 = k then (hd.1, v) :: rest else hd :: insertKV rest k v

/-- Merging the entries of `m` into `base`, the meaning of a `**m` spread at
the end of a dict literal whose explicit entries are `base`. -/
def dictUpdate (base : Obj) (m : Obj) : Obj :=
  m.foldl (fun acc kv => insertKV acc kv.1 kv.2) base

/-- The declared per-field defaults of each sub-section literal
(lines 200-253 of the source). -/
def uiDefaults : Obj :=
  [("theme", .str "auto"), ("density", .str "comfortable"), ("fontSize", .str "medium"),
   ("colorBlindMode", .bool false), ("reducedMotion", .bool false)]

def interactionDefaults : Obj :=
  [("tone", .str "friendly"), ("verbosity", .str "moderate"),
   ("confirmationStyle", .str "destructive-only"), ("keyboardShortcuts", .bool true)]

def automationDefaults : Obj :=
  [("level", .str "suggestions"), ("aiSuggestions", .bool true), ("autoSave", .bool true),
   ("predictiveActions", .bool false), ("maxAutomationScope", .str "session")]

def notificationsDefaults : Obj :=
  [("enabled", .bool true), ("frequency", .str "batched"),
   ("channels", .arr [.str "in-app"])]

def contentDefaults : Obj :=
  [("language", .str "en"), ("dateFormat", .str "ISO"), ("timeFormat", .str "24h"),
   ("currency", .str "USD"), ("contentFilter", .str "moderate")]

def privacyDefaults : Obj :=
  [("dataSharing", .str "anonymized"), ("analytics", .bool true),
   ("personalization", .bool true)]

def accessibilityDefaults : Obj :=
  [("screenReader", .bool false), ("highContrast", .bool false),
   ("focusIndicators", .str "standard")]

def riskDefaults : Obj :=
  [("tolerance", .str "moderate"), ("requireConfirmation", .bool true)]

/-- The explicit entries of one sub-section literal:
`{'f1': sec.get('f1', d1), ..., 'fn': sec.get('fn', dn)}`. -/
def getFieldDefaults (so : Obj) (d : Obj) : Obj :=
  d.map (fun fd => (fd.1, (olookup so fd.1).getD fd.2))

/-- `prefs.get(name, {})`, evaluated afresh for each field of a sub-section
literal in the source; all evaluations return the same value. -/
def secObj (po : Obj) (name : String) : Json :=
  (olookup po name).getD (.obj [])

/-- One sub-section literal of `normalize_identity`:
`{'f1': prefs.get(name, {}).get('f1', d1), ..., **(prefs.get(name, {}))}`.
When `prefs` is not a dict, `prefs.get` raises `AttributeError`; when the
sub-section value is not a dict, `.get('f1', d1)` raises `AttributeError`
(lists, strings, numbers, booleans and `None` all lack `.get`). -/
def buildSection (prefs : Json) (name : String) (d : Obj) : Except PyErr Json :=
  match prefs with
  | .obj po =>
      match secObj po name with
      | .obj so => .ok (.obj (dictUpdate (getFieldDefaults so d) so))
      | _ => .error .attributeError
  | _ => .error .attributeError

/-- `normalize_identity` (lines 182-261).  The outer literal is
`{**identity, 'preferences': {...eight sub-section literals..., **prefs},
'behaviors': {**identity.get('behaviors', {})}}`; the trailing `**prefs`
spread re-overrides every canonical sub-section that the caller supplied
with the caller's raw value. -/
def normalizeObjBody (o : Obj) : Except PyErr Json := do
  let prefs := (olookup o "preferences").getD (.obj [])
  let ui ← buildSection prefs "ui" uiDefaults
  let ia ← buildSection prefs "interaction" interactionDefaults
  let au ← buildSection prefs "automation" automationDefaults
  let nt ← buildSection prefs "notifications" notificationsDefaults
  let ct ← buildSection prefs "content" contentDefaults
  let pv ← buildSection prefs "privacy" privacyDefaults
  let ac ← buildSection prefs "accessibility" accessibilityDefaults
  let rk ← buildSection prefs "risk" riskDefaults
  let prefsO ← asObj prefs
  let pref := Json.obj (dictUpdate
    [("ui", ui), ("interaction", ia), ("automation", au), ("notifications", nt),
     ("content", ct), ("privacy", pv), ("accessibility", ac), ("risk", rk)] prefsO)
  let behO ← asObj ((olookup o "behaviors").getD (.obj []))
  pure (Json.obj (insertKV (insertKV (dictUpdate [] o) "preferences" pref)
    "behaviors" (.obj (dictUpdate [] behO))))

def normalize_identity (identity : Json) : Except PyErr Json :=
  if (pyTruthy identity && isObjB identity) = false then
    .error (.valueError "Invalid identity object")
  else
    match identity with
    | .obj o => normalizeObjBody o
    | _ => .error (.valueError "Invalid identity object")

/-- Lookup inside a `Json` value that is an object. -/
def olookupJ (j : Json) (k : String) : Option Json :=
  match j with
  | .obj o => olookup o k
  | _ => none

/-- Did the computation return normally (no exception)? -/
def isOkB : Except PyErr Json → Bool
  | .ok _ => true
  | .error _ => false

/-- The canonical sub-section `n` of a `preferences` value is absent or a
mapping (so its `.get` calls in `normalize_identity` cannot raise). -/
def secOk (prefs : Json) (n : String) : Bool :=
  match prefs with
  | .obj po => isObjB (secObj po n)
  | _ => false

/-- The exact domain on which `normalize_identity` returns normally: a
non-empty mapping whose `preferences` entry (if present) is a mapping with
each canonical sub-section entry (if present) itself a mapping, and whose
`behaviors` entry (if present) is a mapping. -/
def normalizeSucceedsOn (j : Json) : Bool :=
  match j with
  | .obj o =>
      !o.isEmpty &&
      isObjB ((olookup o "preferences").getD (.obj [])) &&
      secOk ((olookup o "preferences").getD (.obj [])) "ui" &&
      secOk ((olookup o "preferences").getD (.obj [])) "interaction" &&
      secOk ((olookup o "preferences").getD (.obj [])) "automation" &&
      secOk ((olookup o "preferences").getD (.obj [])) "notifications" &&
      secOk ((olookup o "preferences").getD (.obj [])) "content" &&
      secOk ((olookup o "preferences").getD (.obj [])) "privacy" &&
      secOk ((olookup o "preferences").getD (.obj [])) "accessibility" &&
      secOk ((olookup o "preferences").getD (.obj [])) "risk" &&
      isObjB ((olookup o "behaviors").getD (.obj []))
  | _ => false

/-- The keys of an object, in order. -/
def okeys (l : Obj) : List String := l.map Prod.fst

/-- A Python dict can never carry a duplicate key; the only dict whose key
uniqueness matters for normalization is the `preferences` mapping (its
sub-section values are read once by `.get` but re-merged by `**prefs`). -/
def prefsWF (j : Json) : Prop :=
  match j with
  | .obj o =>
      match olookup o "preferences" with
      | some (.obj po) => (okeys po).Nodup
      | _ => True
  | _ => True

/-- The fully-defaulted `preferences` object produced by the normalizer when
the caller supplied no `preferences` section. -/
def defaultPreferences : Json :=
  Json.obj
    [("ui", Json.obj uiDefaults), ("interaction", Json.obj interactionDefaults),
     ("automation", Json.obj automationDefaults), ("notifications", Json.obj notificationsDefaults),
     ("content", Json.obj contentDefaults), ("privacy", Json.obj privacyDefaults),
     ("accessibility", Json.obj accessibilityDefaults), ("risk", Json.obj riskDefaults)]

/-- The preference fields that `_validate_preferences` checks against a fixed
allowed set: sub-section key, field key, allowed values, error message. -/
def enumeratedChecks : List (String × String × List String × String) :=
  [("ui", "theme", ["light", "dark", "auto", "high-contrast"], "Invalid ui.theme value"),
   ("ui", "density", ["compact", "comfortable", "spacious"], "Invalid ui.density value"),
   ("ui", "fontSize", ["small", "medium", "large", "xlarge"], "Invalid ui.fontSize value"),
   ("interaction", "tone", ["formal", "casual", "friendly", "professional", "minimal"],
     "Invalid interaction.tone value"),
   ("interaction", "verbosity", ["minimal", "moderate", "detailed", "verbose"],
     "Invalid interaction.verbosity value"),
   ("interaction", "confirmationStyle", ["always", "destructive-only", "never"],
     "Invalid interaction.confirmationStyle value"),
   ("automation", "level", ["none", "suggestions", "auto-approve-safe", "aggressive"],
     "Invalid automation.level value"),
   ("automation", "maxAutomationScope", ["local", "session", "account", "global"],
     "Invalid automation.maxAutomationScope value"),
   ("notifications", "frequency", ["realtime", "batched", "digest", "off"],
     "Invalid notifications.frequency value"),
   ("content", "dateFormat", ["ISO", "US", "EU", "relative"],
     "Invalid content.dateFormat value"),
   ("content", "timeFormat", ["12h", "24h"], "Invalid content.timeFormat value"),
   ("privacy", "dataSharing", ["none", "anonymized", "full"],
     "Invalid privacy.dataSharing value"),
   ("accessibility", "focusIndicators", ["minimal", "standard", "enhanced"],
     "Invalid accessibility.focusIndicators value"),
   ("risk", "tolerance", ["conservative", "moderate", "aggressive"],
     "Invalid risk.tolerance value")]

/-! ### Claim theorems -/

/-- Claim C1 (code evaluation at the failing input): on
`{"preferences": {"ui": {"theme": "dark"}}}` the normalizer returns a
`preferences.ui` equal to the caller's raw `{"theme": "dark"}` — the
default-bearing fields (`density`, `fontSize`, `colorBlindMode`,
`reducedMotion`) are NOT filled in, because the trailing `**prefs` spread of
the `preferences` literal replaces the default-overlaid `ui` entry with the
caller's raw sub-section.  This contradicts the claimed behaviour that every
schema-declared default-bearing field the caller omitted is filled with its
default. -/
theorem c1_caller_subsection_replaces_defaults :
    (normalize_identity
        (Json.obj [("preferences", Json.obj [("ui", Json.obj [("theme", Json.str "dark")])])])).map
      (fun r => (olookupJ r "preferences").bind (fun p => olookupJ p "ui"))
      = .ok (some (Json.obj [("theme", Json.str "dark")])) := rfl

/-- Claim C2, counterexample: `normalize({})` does not succeed — the guard
`if not identity or ...` treats the empty dict as falsy and raises
`ValueError`. -/
theorem c2_counterexample_normalize_empty_raises :
    normalize_identity (Json.obj []) = .error (.valueError "Invalid identity object") := rfl

/-- Claim C4 (code evaluation at the failing input): `validate_identity`
raises `TypeError` on the mapping `{"metadata": 0}` — the check
`'created' not in metadata` is applied to a non-container value. -/
theorem c4_validate_raises_on_non_container_metadata :
    validate_identity (Json.obj [("metadata", Json.num 0)]) = .error .typeError := rfl

/-- Claim C5, counterexample: the mapping `{"preferences": 0}` makes
`normalize_identity` raise (`prefs.get('ui', {})` on a non-dict is an
`AttributeError`), so normalization does fail on a mapping input whose
optional section is malformed. -/
theorem c5_counterexample_nonmapping_section_raises :
    normalize_identity (Json.obj [("preferences", Json.num 0)]) = .error .attributeError := rfl

/-- Claim C6, counterexample: a boolean `risk.maxTransactionAmount` passes
validation with no error at all (Python `isinstance(True, (int, float))` is
`True` and `True < 0` is `False`), instead of yielding exactly one error as
claimed for a value outside the allowed set of non-negative numbers. -/
theorem c6_counterexample_boolean_max_amount_accepted :
    validate_identity (Json.obj
      [("version", Json.str "0.1.0"),
       ("metadata", Json.obj
         [("created", Json.str "2024-01-01T00:00:00Z"),
          ("updated", Json.str "2024-01-01T00:00:00Z")]),
       ("preferences", Json.obj
         [("risk", Json.obj [("maxTransactionAmount", Json.bool true)])])])
      = .ok ⟨true, []⟩ := rfl

/-- Claim C9, counterexample: on the empty mapping `{}` validation returns
the single input-type error (the empty dict is falsy), and that error does
not name `version`. -/
theorem c9_counterexample_empty_dict_error :
    validate_identity (Json.obj []) = .ok ⟨false, ["Identity must be a dictionary"]⟩ ∧
    strContainsSub "Identity must be a dictionary".toList "version".toList = false :=
  ⟨rfl, rfl⟩

/-- `", ".join` succeeds on a list of strings and returns them all. -/
theorem joinArgs_map_str (ys : List String) : joinArgs (ys.map Json.str) = .ok ys := by
  induction ys with
  | nil => rfl
  | cons y ys ih => simp [joinArgs, ih, Bind.bind, Except.bind, Pure.pure, Except.pure]

/-- Claim C7: a date-only string is rejected by the ISO-8601-with-time check,
and when both `metadata.created` and `metadata.updated` are present but
invalid, validation reports one error per field — two errors, each checked
independently. -/
theorem c7_metadata_errors_independent :
    _is_valid_iso8601 (Json.str "2024-01-01") = false ∧
    ∀ (c u : Json), _is_valid_iso8601 c = false → _is_valid_iso8601 u = false →
      validate_identity (Json.obj
        [("version", Json.str "0.1.0"),
         ("metadata", Json.obj [("created", c), ("updated", u)])])
        = .ok ⟨false,
            ["Field \"metadata.created\" must be a valid ISO 8601 date-time",
             "Field \"metadata.updated\" must be a valid ISO 8601 date-time"]⟩ := by
  refine ⟨rfl, ?_⟩
  intro c u hc hu
  simp [validate_identity, pyTruthy, isObjB, List.isEmpty_cons, validateObjBody, optCheck,
    checkVersion, checkMetadata, isoFieldCheck, pyContains, pyIndex, olookup, hc, hu,
    Bind.bind, Except.bind, Pure.pure, Except.pure,
    show semverB ['0', '.', '1', '.', '0'] = true from rfl]

/-- Witness for C7 at the date-only strings from the spec. -/
theorem c7_metadata_errors_independent_witness :
    validate_identity (Json.obj
      [("version", Json.str "0.1.0"),
       ("metadata", Json.obj
         [("created", Json.str "2024-01-01"), ("updated", Json.str "2024-01-01")])])
      = .ok ⟨false,
          ["Field \"metadata.created\" must be a valid ISO 8601 date-time",
           "Field \"metadata.updated\" must be a valid ISO 8601 date-time"]⟩ :=
  c7_metadata_errors_independent.2 (Json.str "2024-01-01") (Json.str "2024-01-01") rfl rfl

/-- Claim C8: the end-to-end document with channels
`["in-app", "carrier-pigeon"]` fails with exactly the single aggregate
channels error, and in general a channels list (of strings) with invalid
entries produces exactly one error listing the invalid entries
comma-joined — never one error per bad entry. -/
theorem c8_channels_single_aggregate_error :
    validate_identity (Json.obj
      [("version", Json.str "0.1.0"),
       ("metadata", Json.obj
         [("created", Json.str "2024-01-01T00:00:00Z"),
          ("updated", Json.str "2024-01-01T00:00:00Z")]),
       ("preferences", Json.obj
         [("notifications", Json.obj
           [("channels", Json.arr [Json.str "in-app", Json.str "carrier-pigeon"])])])])
      = .ok ⟨false, ["Invalid notification channels: carrier-pigeon"]⟩ ∧
    ∀ xs : List String,
      xs.filter (fun s => !(["in-app", "email", "push", "sms"].contains s)) ≠ [] →
      _validate_preferences (Json.obj
          [("notifications", Json.obj [("channels", Json.arr (xs.map Json.str))])])
        = .ok ["Invalid notification channels: " ++
            joinComma (xs.filter (fun s => !(["in-app", "email", "push", "sms"].contains s)))] := by
  refine ⟨rfl, ?_⟩
  intro xs h
  have hfilter : (xs.map Json.str).filter (fun ch => !(isStrIn ch ["in-app", "email", "push", "sms"]))
      = (xs.filter (fun s => !(["in-app", "email", "push", "sms"].contains s))).map Json.str := by
    rw [List.filter_map]
    rfl
  rcases hx : xs.filter (fun s => !(["in-app", "email", "push", "sms"].contains s)) with _ | ⟨a, t⟩
  · exact absurd hx h
  · rw [hx] at hfilter
    have hjoin : joinArgs (Json.str a :: t.map Json.str) = .ok (a :: t) := joinArgs_map_str (a :: t)
    simp [_validate_preferences, sectionCheck, olookup, enumFieldCheck, checkChannels,
      checkNotificationsSection, pyContains, pyIndex, hfilter, hx, hjoin,
      Bind.bind, Except.bind, Pure.pure, Except.pure]

/-- Witness for C8's aggregate property at a two-bad-entry list, showing one
combined error rather than two. -/
theorem c8_channels_single_aggregate_error_witness :
    _validate_preferences (Json.obj
        [("notifications", Json.obj
          [("channels", Json.arr
            [Json.str "carrier-pigeon", Json.str "email", Json.str "postcard"])])])
      = .ok ["Invalid notification channels: carrier-pigeon, postcard"] :=
  c8_channels_single_aggregate_error.2 ["carrier-pigeon", "email", "postcard"] (by decide)

theorem getFieldDefaults_nil (d : Obj) : getFieldDefaults [] d = d := by
  simp [getFieldDefaults, olookup]

theorem olookup_nil (k : String) : olookup [] k = none := rfl

/-- Claim C2 (amended): the empty mapping is rejected (see the separate
counterexample theorem), but for every NON-empty mapping
without `preferences` and `behaviors` keys, normalization succeeds, its
`preferences` section carries exactly the defaults of the spec's table
(spelled out below, in particular `ui.theme = "auto"`) and its `behaviors`
section is the empty mapping. -/
theorem c2_defaults_filled_nonempty :
    defaultPreferences = Json.obj
      [("ui", Json.obj
         [("theme", Json.str "auto"), ("density", Json.str "comfortable"),
          ("fontSize", Json.str "medium"), ("colorBlindMode", Json.bool false),
          ("reducedMotion", Json.bool false)]),
       ("interaction", Json.obj
         [("tone", Json.str "friendly"), ("verbosity", Json.str "moderate"),
          ("confirmationStyle", Json.str "destructive-only"),
          ("keyboardShortcuts", Json.bool true)]),
       ("automation", Json.obj
         [("level", Json.str "suggestions"), ("aiSuggestions", Json.bool true),
          ("autoSave", Json.bool true), ("predictiveActions", Json.bool false),
          ("maxAutomationScope", Json.str "session")]),
       ("notifications", Json.obj
         [("enabled", Json.bool true), ("frequency", Json.str "batched"),
          ("channels", Json.arr [Json.str "in-app"])]),
       ("content", Json.obj
         [("language", Json.str "en"), ("dateFormat", Json.str "ISO"),
          ("timeFormat", Json.str "24h"), ("currency", Json.str "USD"),
          ("contentFilter", Json.str "moderate")]),
       ("privacy", Json.obj
         [("dataSharing", Json.str "anonymized"), ("analytics", Json.bool true),
          ("personalization", Json.bool true)]),
       ("accessibility", Json.obj
         [("screenReader", Json.bool false), ("highContrast", Json.bool false),
          ("focusIndicators", Json.str "standard")]),
       ("risk", Json.obj
         [("tolerance", Json.str "moderate"), ("requireConfirmation", Json.bool true)])] ∧
    ∀ o : Obj, o ≠ [] → olookup o "preferences" = none → olookup o "behaviors" = none →
      normalize_identity (Json.obj o)
        = .ok (Json.obj (insertKV (insertKV (dictUpdate [] o) "preferences" defaultPreferences)
            "behaviors" (Json.obj []))) := by
  refine ⟨rfl, ?_⟩
  intro o ho hp hb
  cases o with
  | nil => exact absurd rfl ho
  | cons hd tl =>
    simp [normalize_identity, normalizeObjBody, pyTruthy, isObjB, List.isEmpty_cons, hp, hb, buildSection,
      secObj, getFieldDefaults_nil, olookup_nil, asObj, defaultPreferences, dictUpdate,
      Bind.bind, Except.bind, Pure.pure, Except.pure]

/-- Witness for C2's amended statement at `{"version": "0.1.0"}`. -/
theorem c2_defaults_filled_nonempty_witness :
    normalize_identity (Json.obj [("version", Json.str "0.1.0")])
      = .ok (Json.obj
          [("version", Json.str "0.1.0"), ("preferences", defaultPreferences),
           ("behaviors", Json.obj [])]) :=
  c2_defaults_filled_nonempty.2 [("version", Json.str "0.1.0")] (by simp) rfl rfl

/-- Claim C6 (amended): for each preferences field that the validator
actually checks against a fixed allowed set (the fourteen enumerated
string-valued fields of `enumeratedChecks`), a present value outside the
allowed set yields exactly one error naming the dotted path.  The
boolean-typed fields of the table are not validated at all, and a boolean
`risk.maxTransactionAmount` is accepted with no error (Python's `bool`
passes `isinstance(x, (int, float))`), as the second conjunct records. -/
theorem c6_enumerated_fields_single_error :
    (∀ e ∈ enumeratedChecks, ∀ v : Json, isStrIn v e.2.2.1 = false →
      _validate_preferences (Json.obj [(e.1, Json.obj [(e.2.1, v)])]) = .ok [e.2.2.2]) ∧
    (∀ b : Bool,
      _validate_preferences
          (Json.obj [("risk", Json.obj [("maxTransactionAmount", Json.bool b)])])
        = .ok []) := by
  constructor
  · intro e he v hv
    fin_cases he <;>
      simp [_validate_preferences, sectionCheck, olookup, enumFieldCheck, regexFieldCheck,
        checkChannels, checkMaxTransaction, checkUiSection, checkInteractionSection,
        checkAutomationSection, checkNotificationsSection, checkContentSection,
        checkPrivacySection, checkAccessibilitySection, checkRiskSection,
        pyContains, pyIndex, hv, Bind.bind, Except.bind, Pure.pure, Except.pure]
  · intro b
    cases b <;> rfl

/-- Witness for C6 at `ui.theme = "neon"`. -/
theorem c6_enumerated_fields_single_error_witness :
    _validate_preferences (Json.obj [("ui", Json.obj [("theme", Json.str "neon")])])
      = .ok ["Invalid ui.theme value"] :=
  c6_enumerated_fields_single_error.1
    ("ui", "theme", ["light", "dark", "auto", "high-contrast"], "Invalid ui.theme value")
    (by decide) (Json.str "neon") (by decide)

/-- Claim C10: for non-empty mappings the validation result depends only on
the presence and values of the four recognized top-level keys. -/
theorem c10_validation_depends_only_on_recognized_keys :
    ∀ (o1 o2 : Obj), o1 ≠ [] → o2 ≠ [] →
      olookup o1 "version" = olookup o2 "version" →
      olookup o1 "metadata" = olookup o2 "metadata" →
      olookup o1 "preferences" = olookup o2 "preferences" →
      olookup o1 "behaviors" = olookup o2 "behaviors" →
      validate_identity (Json.obj o1) = validate_identity (Json.obj o2) := by
  intro o1 o2 h1 h2 hv hm hp hb
  cases o1 with
  | nil => exact absurd rfl h1
  | cons a l1 =>
    cases o2 with
    | nil => exact absurd rfl h2
    | cons b l2 =>
      simp only [validate_identity, pyTruthy, isObjB, List.isEmpty_cons]
      rw [hv, hm, hp, hb]

/-- Witness for C10: adding or renaming unrecognized top-level keys does not
change the validation result. -/
theorem c10_validation_depends_only_on_recognized_keys_witness :
    validate_identity (Json.obj [("extra", Json.null), ("version", Json.str "0.1.0")])
      = validate_identity (Json.obj [("version", Json.str "0.1.0"), ("other", Json.num 7)]) :=
  c10_validation_depends_only_on_recognized_keys
    [("extra", Json.null), ("version", Json.str "0.1.0")]
    [("version", Json.str "0.1.0"), ("other", Json.num 7)]
    (by simp) (by simp) rfl rfl rfl rfl

/-! ### Classification of the error messages each checker can produce -/

theorem bind_ok {α β : Type} {a : Except PyErr α} {k : α → Except PyErr β} {r : β}
    (h : (a >>= k) = .ok r) : ∃ v, a = .ok v ∧ k v = .ok r := by
  cases a with
  | error e => simp [Bind.bind, Except.bind] at h
  | ok v => exact ⟨v, rfl, by simpa [Bind.bind, Except.bind] using h⟩

theorem strData_append (a b : String) : (a ++ b).data = a.data ++ b.data := rfl

theorem channelsMsg_head (t : String) :
    ("Invalid notification channels: " ++ t).data.head? = some 'I' := by
  rw [strData_append]; rfl

theorem enumFieldCheck_ok {sec : Json} {f : String} {al : List String} {msg : String}
    {l : List String} (h : enumFieldCheck sec f al msg = .ok l) : l = [] ∨ l = [msg] := by
  unfold enumFieldCheck at h
  obtain ⟨has, -, h⟩ := bind_ok h
  cases has with
  | false => exact Or.inl (Except.ok.inj h).symm
  | true =>
    rw [if_pos rfl] at h
    obtain ⟨v, -, h⟩ := bind_ok h
    have h2 := (Except.ok.inj h).symm
    by_cases hi : isStrIn v al = true
    · rw [if_pos hi] at h2; exact Or.inl h2
    · rw [if_neg hi] at h2; exact Or.inr h2

theorem regexFieldCheck_ok {sec : Json} {f : String} {matcher : List Char → Bool}
    {msg : String} {l : List String} (h : regexFieldCheck sec f matcher msg = .ok l) :
    l = [] ∨ l = [msg] := by
  unfold regexFieldCheck at h
  obtain ⟨has, -, h⟩ := bind_ok h
  cases has with
  | false => exact Or.inl (Except.ok.inj h).symm
  | true =>
    rw [if_pos rfl] at h
    obtain ⟨v, -, h⟩ := bind_ok h
    cases v with
    | str s =>
      have h2 := (Except.ok.inj h).symm
      by_cases hm : matcher s.toList = true
      · rw [if_pos hm] at h2; exact Or.inl h2
      · rw [if_neg hm] at h2; exact Or.inr h2
    | null => exact Except.noConfusion h
    | bool b => exact Except.noConfusion h
    | num n => exact Except.noConfusion h
    | arr xs => exact Except.noConfusion h
    | obj o => exact Except.noConfusion h

theorem checkChannels_ok {nt : Json} {l : List String} (h : checkChannels nt = .ok l) :
    l = [] ∨ l = ["notifications.channels must be a list"] ∨
      ∃ t, l = ["Invalid notification channels: " ++ t] := by
  unfold checkChannels at h
  obtain ⟨has, -, h⟩ := bind_ok h
  cases has with
  | false => exact Or.inl (Except.ok.inj h).symm
  | true =>
    rw [if_pos rfl] at h
    obtain ⟨v, -, h⟩ := bind_ok h
    cases v with
    | arr xs =>
      replace h :
          (if (xs.filter (fun ch => !(isStrIn ch ["in-app", "email", "push", "sms"]))).isEmpty = true then
            (pure [] : Except PyErr (List String))
          else do
            let strs ← joinArgs (xs.filter (fun ch => !(isStrIn ch ["in-app", "email", "push", "sms"])))
            pure ["Invalid notification channels: " ++ joinComma strs]) = .ok l := h
      by_cases he :
          (xs.filter (fun ch => !(isStrIn ch ["in-app", "email", "push", "sms"]))).isEmpty = true
      · rw [if_pos he] at h
        exact Or.inl (Except.ok.inj h).symm
      · rw [if_neg he] at h
        obtain ⟨strs, -, h⟩ := bind_ok h
        exact Or.inr (Or.inr ⟨joinComma strs, (Except.ok.inj h).symm⟩)
    | null => exact Or.inr (Or.inl (Except.ok.inj h).symm)
    | bool b => exact Or.inr (Or.inl (Except.ok.inj h).symm)
    | num n => exact Or.inr (Or.inl (Except.ok.inj h).symm)
    | str s => exact Or.inr (Or.inl (Except.ok.inj h).symm)
    | obj o => exact Or.inr (Or.inl (Except.ok.inj h).symm)

theorem checkMaxTransaction_ok {rk : Json} {l : List String}
    (h : checkMaxTransaction rk = .ok l) :
    l = [] ∨ l = ["risk.maxTransactionAmount must be a non-negative number"] := by
  unfold checkMaxTransaction at h
  obtain ⟨has, -, h⟩ := bind_ok h
  cases has with
  | false => exact Or.inl (Except.ok.inj h).symm
  | true =>
    rw [if_pos rfl] at h
    obtain ⟨v, -, h⟩ := bind_ok h
    have h2 := (Except.ok.inj h).symm
    cases v with
    | num n =>
      replace h2 : l =
          (if n < 0 then ["risk.maxTransactionAmount must be a non-negative number"] else []) := h2
      by_cases hn : n < 0
      · rw [if_pos hn] at h2; exact Or.inr h2
      · rw [if_neg hn] at h2; exact Or.inl h2
    | bool b => exact Or.inl h2
    | null => exact Or.inr h2
    | str s => exact Or.inr h2
    | arr xs => exact Or.inr h2
    | obj o => exact Or.inr h2

theorem isoFieldCheck_ok {md : Json} {f m1 m2 : String} {l : List String}
    (h : isoFieldCheck md f m1 m2 = .ok l) : l = [] ∨ l = [m1] ∨ l = [m2] := by
  unfold isoFieldCheck at h
  obtain ⟨has, -, h⟩ := bind_ok h
  cases has with
  | false => exact Or.inr (Or.inl (Except.ok.inj h).symm)
  | true =>
    rw [if_pos rfl] at h
    obtain ⟨v, -, h⟩ := bind_ok h
    have h2 := (Except.ok.inj h).symm
    by_cases hv : _is_valid_iso8601 v = true
    · rw [if_pos hv] at h2; exact Or.inl h2
    · rw [if_neg hv] at h2; exact Or.inr (Or.inr h2)

theorem checkMetadata_ok {mv : Option Json} {l : List String}
    (h : checkMetadata mv = .ok l) :
    ∀ s ∈ l, s ∈ ["Missing required field: metadata",
      "Missing required field: metadata.created",
      "Field \"metadata.created\" must be a valid ISO 8601 date-time",
      "Missing required field: metadata.updated",
      "Field \"metadata.updated\" must be a valid ISO 8601 date-time"] := by
  cases mv with
  | none =>
    have h2 := (Except.ok.inj h).symm
    subst h2
    intro s hs
    rw [List.mem_singleton] at hs
    subst hs; simp
  | some md =>
    unfold checkMetadata at h
    obtain ⟨c, hc, h⟩ := bind_ok h
    obtain ⟨u, hu, h⟩ := bind_ok h
    have h2 := (Except.ok.inj h).symm
    subst h2
    intro s hs
    rcases List.mem_append.1 hs with hsc | hsu
    · rcases isoFieldCheck_ok hc with rfl | rfl | rfl <;> simp_all
    · rcases isoFieldCheck_ok hu with rfl | rfl | rfl <;> simp_all

/-- Every message produced by a successful `_validate_preferences` starts
with `I` (the `Invalid ...` family, including the aggregate channels
message), `P` (`Preferences must be a dictionary`), `n`
(`notifications.channels must be a list`) or `r`
(`risk.maxTransactionAmount ...`). -/
theorem validatePreferences_heads {p : Json} {l : List String}
    (h : _validate_preferences p = .ok l) :
    ∀ s ∈ l, s.data.head? = some 'I' ∨ s.data.head? = some 'P' ∨
      s.data.head? = some 'n' ∨ s.data.head? = some 'r' := by
  have hsec : ∀ (po : Obj) (n : String) (f : Json → Except PyErr (List String))
      (hf : ∀ (j : Json) (lf : List String), f j = .ok lf →
        ∀ s ∈ lf, s.data.head? = some 'I' ∨ s.data.head? = some 'P' ∨
          s.data.head? = some 'n' ∨ s.data.head? = some 'r')
      (lf : List String), sectionCheck po n f = .ok lf →
      ∀ s ∈ lf, s.data.head? = some 'I' ∨ s.data.head? = some 'P' ∨
        s.data.head? = some 'n' ∨ s.data.head? = some 'r' := by
    intro po n f hf lf hsc
    unfold sectionCheck at hsc
    rcases ho : olookup po n with - | sec <;> rw [ho] at hsc
    · have h2 := (Except.ok.inj hsc).symm
      subst h2
      intro s hs
      exact absurd hs (List.not_mem_nil s)
    · exact hf sec lf hsc
  have henum : ∀ (sec : Json) (f : String) (al : List String) (msg : String)
      (lf : List String), enumFieldCheck sec f al msg = .ok lf →
      msg.data.head? = some 'I' → ∀ s ∈ lf, s.data.head? = some 'I' ∨
        s.data.head? = some 'P' ∨ s.data.head? = some 'n' ∨ s.data.head? = some 'r' := by
    intro sec f al msg lf he hh s hs
    rcases enumFieldCheck_ok he with rfl | rfl
    · exact absurd hs (List.not_mem_nil s)
    · rw [List.mem_singleton] at hs; subst hs; exact Or.inl hh
  cases p
  case obj po =>
    unfold _validate_preferences at h
    obtain ⟨uiE, hui, h⟩ := bind_ok h
    obtain ⟨inE, hin, h⟩ := bind_ok h
    obtain ⟨auE, hau, h⟩ := bind_ok h
    obtain ⟨ntE, hnt, h⟩ := bind_ok h
    obtain ⟨ctE, hct, h⟩ := bind_ok h
    obtain ⟨pvE, hpv, h⟩ := bind_ok h
    obtain ⟨acE, hac, h⟩ := bind_ok h
    obtain ⟨rkE, hrk, h⟩ := bind_ok h
    have h2 := (Except.ok.inj h).symm
    subst h2
    intro s hs
    simp only [List.append_assoc, List.mem_append] at hs
    rcases hs with hs | hs | hs | hs | hs | hs | hs | hs
    · refine hsec po "ui" checkUiSection ?_ uiE hui s hs
      intro j lf hj
      unfold checkUiSection at hj
      obtain ⟨a, ha, hj⟩ := bind_ok hj
      obtain ⟨b, hb, hj⟩ := bind_ok hj
      obtain ⟨c, hc, hj⟩ := bind_ok hj
      have hj2 := (Except.ok.inj hj).symm
      subst hj2
      intro t ht
      simp only [List.append_assoc, List.mem_append] at ht
      rcases ht with ht | ht | ht
      · exact henum _ _ _ _ _ ha rfl t ht
      · exact henum _ _ _ _ _ hb rfl t ht
      · exact henum _ _ _ _ _ hc rfl t ht
    · refine hsec po "interaction" checkInteractionSection ?_ inE hin s hs
      intro j lf hj
      unfold checkInteractionSection at hj
      obtain ⟨a, ha, hj⟩ := bind_ok hj
      obtain ⟨b, hb, hj⟩ := bind_ok hj
      obtain ⟨c, hc, hj⟩ := bind_ok hj
      have hj2 := (Except.ok.inj hj).symm
      subst hj2
      intro t ht
      simp only [List.append_assoc, List.mem_append] at ht
      rcases ht with ht | ht | ht
      · exact henum _ _ _ _ _ ha rfl t ht
      · exact henum _ _ _ _ _ hb rfl t ht
      · exact henum _ _ _ _ _ hc rfl t ht
    · refine hsec po "automation" checkAutomationSection ?_ auE hau s hs
      intro j lf hj
      unfold checkAutomationSection at hj
      obtain ⟨a, ha, hj⟩ := bind_ok hj
      obtain ⟨b, hb, hj⟩ := bind_ok hj
      have hj2 := (Except.ok.inj hj).symm
      subst hj2
      intro t ht
      rcases List.mem_append.1 ht with ht | ht
      · exact henum _ _ _ _ _ ha rfl t ht
      · exact henum _ _ _ _ _ hb rfl t ht
    · refine hsec po "notifications" checkNotificationsSection ?_ ntE hnt s hs
      intro j lf hj
      unfold checkNotificationsSection at hj
      obtain ⟨a, ha, hj⟩ := bind_ok hj
      obtain ⟨b, hb, hj⟩ := bind_ok hj
      have hj2 := (Except.ok.inj hj).symm
      subst hj2
      intro t ht
      rcases List.mem_append.1 ht with ht | ht
      · exact henum _ _ _ _ _ ha rfl t ht
      · rcases checkChannels_ok hb with rfl | rfl | ⟨u, rfl⟩
        · exact absurd ht (List.not_mem_nil t)
        · rw [List.mem_singleton] at ht; subst ht; exact Or.inr (Or.inr (Or.inl rfl))
        · rw [List.mem_singleton] at ht; subst ht; exact Or.inl (channelsMsg_head u)
    · refine hsec po "content" checkContentSection ?_ ctE hct s hs
      intro j lf hj
      unfold checkContentSection at hj
      obtain ⟨a, ha, hj⟩ := bind_ok hj
      obtain ⟨b, hb, hj⟩ := bind_ok hj
      obtain ⟨c, hc, hj⟩ := bind_ok hj
      obtain ⟨d, hd, hj⟩ := bind_ok hj
      have hj2 := (Except.ok.inj hj).symm
      subst hj2
      intro t ht
      simp only [List.append_assoc, List.mem_append] at ht
      rcases ht with ht | ht | ht | ht
      · rcases regexFieldCheck_ok ha with rfl | rfl
        · exact absurd ht (List.not_mem_nil t)
        · rw [List.mem_singleton] at ht; subst ht; exact Or.inl rfl
      · exact henum _ _ _ _ _ hb rfl t ht
      · exact henum _ _ _ _ _ hc rfl t ht
      · rcases regexFieldCheck_ok hd with rfl | rfl
        · exact absurd ht (List.not_mem_nil t)
        · rw [List.mem_singleton] at ht; subst ht; exact Or.inl rfl
    · refine hsec po "privacy" checkPrivacySection ?_ pvE hpv s hs
      intro j lf hj
      exact henum _ _ _ _ _ hj rfl
    · refine hsec po "accessibility" checkAccessibilitySection ?_ acE hac s hs
      intro j lf hj
      exact henum _ _ _ _ _ hj rfl
    · refine hsec po "risk" checkRiskSection ?_ rkE hrk s hs
      intro j lf hj
      unfold checkRiskSection at hj
      obtain ⟨a, ha, hj⟩ := bind_ok hj
      obtain ⟨b, hb, hj⟩ := bind_ok hj
      have hj2 := (Except.ok.inj hj).symm
      subst hj2
      intro t ht
      rcases List.mem_append.1 ht with ht | ht
      · exact henum _ _ _ _ _ ha rfl t ht
      · rcases checkMaxTransaction_ok hb with rfl | rfl
        · exact absurd ht (List.not_mem_nil t)
        · rw [List.mem_singleton] at ht; subst ht; exact Or.inr (Or.inr (Or.inr rfl))
  all_goals
    have h2 := (Except.ok.inj h).symm
    subst h2
    intro s hs
    rw [List.mem_singleton] at hs
    subst hs
    exact Or.inr (Or.inl rfl)

theorem validateBehaviors_ok {b : Json} {l : List String}
    (h : _validate_behaviors b = .ok l) :
    ∀ s ∈ l, s ∈ ["Behaviors must be a dictionary", "Invalid behaviors.workflow value",
      "Invalid behaviors.learningStyle value", "Invalid behaviors.decisionSpeed value"] := by
  cases b
  case obj bo =>
    unfold _validate_behaviors at h
    obtain ⟨a, ha, h⟩ := bind_ok h
    obtain ⟨c, hc, h⟩ := bind_ok h
    obtain ⟨d, hd, h⟩ := bind_ok h
    have h2 := (Except.ok.inj h).symm
    subst h2
    intro s hs
    simp only [List.append_assoc, List.mem_append] at hs
    rcases hs with hs | hs | hs
    · rcases enumFieldCheck_ok ha with rfl | rfl <;> simp_all
    · rcases enumFieldCheck_ok hc with rfl | rfl <;> simp_all
    · rcases enumFieldCheck_ok hd with rfl | rfl <;> simp_all
  all_goals
    have h2 := (Except.ok.inj h).symm
    subst h2
    intro s hs
    rw [List.mem_singleton] at hs
    subst hs
    simp

/-- Claim C9 (amended): a non-mapping input yields the single input-type
error and no further checks run; for every NON-empty mapping lacking
`version` (the empty mapping is instead rejected by the input-type guard,
see the counterexample), whenever validation returns a result at all, the
result is invalid, its error list contains `Missing required field: version`
exactly once, and contains neither of the other two version-related
messages. -/
theorem c9_missing_version_error :
    (∀ j : Json, isObjB j = false →
      validate_identity j = .ok ⟨false, ["Identity must be a dictionary"]⟩) ∧
    ∀ (o : Obj) (res : VResult), o ≠ [] → olookup o "version" = none →
      validate_identity (Json.obj o) = .ok res →
      res.valid = false ∧
      res.errors.count "Missing required field: version" = 1 ∧
      "Field \"version\" must be a string" ∉ res.errors ∧
      "Field \"version\" must follow semantic versioning (e.g., \"0.1.0\")" ∉ res.errors := by
  constructor
  · intro j hj
    cases j <;> simp [isObjB] at hj <;> simp [validate_identity, pyTruthy, isObjB]
  · intro o res ho hv hval
    cases o with
    | nil => exact absurd rfl ho
    | cons hd tl =>
      replace hval :
          validateObjBody (olookup (hd :: tl) "version") (olookup (hd :: tl) "metadata")
            (olookup (hd :: tl) "preferences") (olookup (hd :: tl) "behaviors") = .ok res := hval
      rw [hv] at hval
      unfold validateObjBody at hval
      obtain ⟨metE, hmet, hval⟩ := bind_ok hval
      obtain ⟨preE, hpre, hval⟩ := bind_ok hval
      obtain ⟨behE, hbeh, hval⟩ := bind_ok hval
      have hres := (Except.ok.inj hval).symm
      subst hres
      have hcv : checkVersion none = ["Missing required field: version"] := rfl
      have hmem_m := checkMetadata_ok hmet
      have hmem_p : ∀ s ∈ preE, s.data.head? = some 'I' ∨ s.data.head? = some 'P' ∨
          s.data.head? = some 'n' ∨ s.data.head? = some 'r' := by
        rcases hop : olookup (hd :: tl) "preferences" with - | p <;> rw [hop] at hpre
        · have h2 := (Except.ok.inj hpre).symm
          subst h2
          intro s hs
          exact absurd hs (List.not_mem_nil s)
        · exact validatePreferences_heads hpre
      have hmem_b : ∀ s ∈ behE, s ∈ ["Behaviors must be a dictionary",
          "Invalid behaviors.workflow value", "Invalid behaviors.learningStyle value",
          "Invalid behaviors.decisionSpeed value"] := by
        rcases hob : olookup (hd :: tl) "behaviors" with - | b <;> rw [hob] at hbeh
        · have h2 := (Except.ok.inj hbeh).symm
          subst h2
          intro s hs
          exact absurd hs (List.not_mem_nil s)
        · exact validateBehaviors_ok hbeh
      have hnm : "Missing required field: version" ∉ metE := by
        intro hmem
        have := hmem_m _ hmem
        simp at this
      have hnp : "Missing required field: version" ∉ preE := by
        intro hmem
        rcases hmem_p _ hmem with hh | hh | hh | hh <;> exact absurd hh (by decide)
      have hnb : "Missing required field: version" ∉ behE := by
        intro hmem
        have := hmem_b _ hmem
        simp at this
      refine ⟨by simp [hcv], ?_, ?_, ?_⟩
      · rw [hcv]
        simp [List.count_append, List.count_eq_zero.mpr hnm, List.count_eq_zero.mpr hnp,
          List.count_eq_zero.mpr hnb]
      · intro hmem
        rw [hcv] at hmem
        simp only [List.append_assoc, List.mem_append, List.mem_singleton] at hmem
        rcases hmem with hmem | hmem | hmem | hmem
        · exact absurd hmem (by decide)
        · have := hmem_m _ hmem; simp at this
        · rcases hmem_p _ hmem with hh | hh | hh | hh <;> exact absurd hh (by decide)
        · have := hmem_b _ hmem; simp at this
      · intro hmem
        rw [hcv] at hmem
        simp only [List.append_assoc, List.mem_append, List.mem_singleton] at hmem
        rcases hmem with hmem | hmem | hmem | hmem
        · exact absurd hmem (by decide)
        · have := hmem_m _ hmem; simp at this
        · rcases hmem_p _ hmem with hh | hh | hh | hh <;> exact absurd hh (by decide)
        · have := hmem_b _ hmem; simp at this

/-- Witness for C9 at `{"metadata": {...valid dates...}}` (non-empty, no
`version` key). -/
theorem c9_missing_version_error_witness :
    (⟨false, ["Missing required field: version"]⟩ : VResult).valid = false ∧
    (⟨false, ["Missing required field: version"]⟩ : VResult).errors.count
      "Missing required field: version" = 1 ∧
    "Field \"version\" must be a string"
      ∉ (⟨false, ["Missing required field: version"]⟩ : VResult).errors ∧
    "Field \"version\" must follow semantic versioning (e.g., \"0.1.0\")"
      ∉ (⟨false, ["Missing required field: version"]⟩ : VResult).errors :=
  c9_missing_version_error.2
    [("metadata", Json.obj
      [("created", Json.str "2024-01-01T00:00:00Z"),
       ("updated", Json.str "2024-01-01T00:00:00Z")])]
    ⟨false, ["Missing required field: version"]⟩ (by simp) rfl rfl

theorem isObjB_true {x : Json} (h : isObjB x = true) : ∃ o, x = Json.obj o := by
  cases x <;> simp [isObjB] at h
  exact ⟨_, rfl⟩

theorem buildSection_prefs_not_obj {p : Json} {n : String} {d : Obj}
    (h : isObjB p = false) : buildSection p n d = .error .attributeError := by
  cases p <;> simp_all [buildSection, isObjB]

theorem buildSection_not_obj {po : Obj} {n : String} {d : Obj}
    (h : isObjB (secObj po n) = false) :
    buildSection (Json.obj po) n d = .error .attributeError := by
  unfold buildSection
  rcases hs : secObj po n <;> simp_all [isObjB]

theorem asObj_not_obj {x : Json} (h : isObjB x = false) : asObj x = .error .typeError := by
  cases x <;> simp_all [isObjB, asObj]

theorem isObjB_obj (o : Obj) : isObjB (Json.obj o) = true := rfl

theorem buildSection_obj {po : Obj} {n : String} (d : Obj) {so : Obj}
    (h : secObj po n = Json.obj so) :
    buildSection (Json.obj po) n d
      = .ok (Json.obj (dictUpdate (getFieldDefaults so d) so)) := by
  have hm : buildSection (Json.obj po) n d
      = (match secObj po n with
         | Json.obj so => Except.ok (Json.obj (dictUpdate (getFieldDefaults so d) so))
         | _ => Except.error PyErr.attributeError) := rfl
  rw [hm, h]

theorem secOk_obj (po : Obj) (n : String) : secOk (Json.obj po) n = isObjB (secObj po n) := rfl

theorem asObj_obj (o : Obj) : asObj (Json.obj o) = .ok o := rfl

/-- Claim C5 (amended): `normalize_identity` raises `InvalidInput`
(`ValueError`) exactly when the input is not a mapping OR is the empty
mapping; and on the remaining (non-empty) mappings it returns normally
exactly when `preferences` (if present) is a mapping whose canonical
sub-sections (if present) are mappings and `behaviors` (if present) is a
mapping — a mapping input with a malformed optional section makes it raise
(`AttributeError`/`TypeError`) instead of being tolerated. -/
theorem c5_normalize_failure_characterization :
    ∀ j : Json,
      isOkB (normalize_identity j) = normalizeSucceedsOn j ∧
      (normalize_identity j = .error (.valueError "Invalid identity object") ↔
        (pyTruthy j && isObjB j) = false) := by
  intro j
  cases j
  case obj o =>
    cases o with
    | nil =>
      exact ⟨rfl, by simp [normalize_identity, normalizeObjBody, pyTruthy, isObjB]⟩
    | cons hd tl =>
      cases hp : isObjB ((olookup (hd :: tl) "preferences").getD (Json.obj [])) with
      | false =>
        exact ⟨by simp [normalize_identity, normalizeObjBody, pyTruthy, isObjB_obj, List.isEmpty_cons, isOkB,
            normalizeSucceedsOn, secOk_obj, hp, buildSection_prefs_not_obj hp,
            Bind.bind, Except.bind, Pure.pure, Except.pure],
          by simp [normalize_identity, normalizeObjBody, pyTruthy, isObjB_obj, List.isEmpty_cons,
            buildSection_prefs_not_obj hp, Bind.bind, Except.bind, Pure.pure, Except.pure]⟩
      | true =>
        obtain ⟨po, hpo⟩ := isObjB_true hp
        cases h1 : isObjB (secObj po "ui") with
        | false =>
          exact ⟨by simp [normalize_identity, normalizeObjBody, pyTruthy, isObjB_obj, List.isEmpty_cons, isOkB,
              normalizeSucceedsOn, secOk_obj, hpo, h1, buildSection_not_obj h1,
              Bind.bind, Except.bind, Pure.pure, Except.pure],
            by simp [normalize_identity, normalizeObjBody, pyTruthy, isObjB_obj, List.isEmpty_cons, hpo,
              buildSection_not_obj h1, Bind.bind, Except.bind, Pure.pure, Except.pure]⟩
        | true =>
        obtain ⟨so1, hs1⟩ := isObjB_true h1
        have hb1 : buildSection (Json.obj po) "ui" uiDefaults
            = .ok (Json.obj (dictUpdate (getFieldDefaults so1 uiDefaults) so1)) :=
          buildSection_obj uiDefaults hs1
        cases h2 : isObjB (secObj po "interaction") with
        | false =>
          exact ⟨by simp [normalize_identity, normalizeObjBody, pyTruthy, isObjB_obj, List.isEmpty_cons, isOkB,
              normalizeSucceedsOn, secOk_obj, hpo, hs1, h2, hb1, buildSection_not_obj h2,
              Bind.bind, Except.bind, Pure.pure, Except.pure],
            by simp [normalize_identity, normalizeObjBody, pyTruthy, isObjB_obj, List.isEmpty_cons, hpo, hb1,
              buildSection_not_obj h2, Bind.bind, Except.bind, Pure.pure, Except.pure]⟩
        | true =>
        obtain ⟨so2, hs2⟩ := isObjB_true h2
        have hb2 : buildSection (Json.obj po) "interaction" interactionDefaults
            = .ok (Json.obj (dictUpdate (getFieldDefaults so2 interactionDefaults) so2)) :=
          buildSection_obj interactionDefaults hs2
        cases h3 : isObjB (secObj po "automation") with
        | false =>
          exact ⟨by simp [normalize_identity, normalizeObjBody, pyTruthy, isObjB_obj, List.isEmpty_cons, isOkB,
              normalizeSucceedsOn, secOk_obj, hpo, hs1, hs2, h3, hb1, hb2, buildSection_not_obj h3,
              Bind.bind, Except.bind, Pure.pure, Except.pure],
            by simp [normalize_identity, normalizeObjBody, pyTruthy, isObjB_obj, List.isEmpty_cons, hpo, hb1, hb2,
              buildSection_not_obj h3, Bind.bind, Except.bind, Pure.pure, Except.pure]⟩
        | true =>
        obtain ⟨so3, hs3⟩ := isObjB_true h3
        have hb3 : buildSection (Json.obj po) "automation" automationDefaults
            = .ok (Json.obj (dictUpdate (getFieldDefaults so3 automationDefaults) so3)) :=
          buildSection_obj automationDefaults hs3
        cases h4 : isObjB (secObj po "notifications") with
        | false =>
          exact ⟨by simp [normalize_identity, normalizeObjBody, pyTruthy, isObjB_obj, List.isEmpty_cons, isOkB,
              normalizeSucceedsOn, secOk_obj, hpo, hs1, hs2, hs3, h4, hb1, hb2, hb3,
              buildSection_not_obj h4, Bind.bind, Except.bind, Pure.pure, Except.pure],
            by simp [normalize_identity, normalizeObjBody, pyTruthy, isObjB_obj, List.isEmpty_cons, hpo, hb1, hb2, hb3,
              buildSection_not_obj h4, Bind.bind, Except.bind, Pure.pure, Except.pure]⟩
        | true =>
        obtain ⟨so4, hs4⟩ := isObjB_true h4
        have hb4 : buildSection (Json.obj po) "notifications" notificationsDefaults
            = .ok (Json.obj (dictUpdate (getFieldDefaults so4 notificationsDefaults) so4)) :=
          buildSection_obj notificationsDefaults hs4
        cases h5 : isObjB (secObj po "content") with
        | false =>
          exact ⟨by simp [normalize_identity, normalizeObjBody, pyTruthy, isObjB_obj, List.isEmpty_cons, isOkB,
              normalizeSucceedsOn, secOk_obj, hpo, hs1, hs2, hs3, hs4, h5, hb1, hb2, hb3, hb4,
              buildSection_not_obj h5, Bind.bind, Except.bind, Pure.pure, Except.pure],
            by simp [normalize_identity, normalizeObjBody, pyTruthy, isObjB_obj, List.isEmpty_cons, hpo,
              hb1, hb2, hb3, hb4, buildSection_not_obj h5,
              Bind.bind, Except.bind, Pure.pure, Except.pure]⟩
        | true =>
        obtain ⟨so5, hs5⟩ := isObjB_true h5
        have hb5 : buildSection (Json.obj po) "content" contentDefaults
            = .ok (Json.obj (dictUpdate (getFieldDefaults so5 contentDefaults) so5)) :=
          buildSection_obj contentDefaults hs5
        cases h6 : isObjB (secObj po "privacy") with
        | false =>
          exact ⟨by simp [normalize_identity, normalizeObjBody, pyTruthy, isObjB_obj, List.isEmpty_cons, isOkB,
              normalizeSucceedsOn, secOk_obj, hpo, hs1, hs2, hs3, hs4, hs5, h6,
              hb1, hb2, hb3, hb4, hb5, buildSection_not_obj h6,
              Bind.bind, Except.bind, Pure.pure, Except.pure],
            by simp [normalize_identity, normalizeObjBody, pyTruthy, isObjB_obj, List.isEmpty_cons, hpo,
              hb1, hb2, hb3, hb4, hb5, buildSection_not_obj h6,
              Bind.bind, Except.bind, Pure.pure, Except.pure]⟩
        | true =>
        obtain ⟨so6, hs6⟩ := isObjB_true h6
        have hb6 : buildSection (Json.obj po) "privacy" privacyDefaults
            = .ok (Json.obj (dictUpdate (getFieldDefaults so6 privacyDefaults) so6)) :=
          buildSection_obj privacyDefaults hs6
        cases h7 : isObjB (secObj po "accessibility") with
        | false =>
          exact ⟨by simp [normalize_identity, normalizeObjBody, pyTruthy, isObjB_obj, List.isEmpty_cons, isOkB,
              normalizeSucceedsOn, secOk_obj, hpo, hs1, hs2, hs3, hs4, hs5, hs6, h7,
              hb1, hb2, hb3, hb4, hb5, hb6, buildSection_not_obj h7,
              Bind.bind, Except.bind, Pure.pure, Except.pure],
            by simp [normalize_identity, normalizeObjBody, pyTruthy, isObjB_obj, List.isEmpty_cons, hpo,
              hb1, hb2, hb3, hb4, hb5, hb6, buildSection_not_obj h7,
              Bind.bind, Except.bind, Pure.pure, Except.pure]⟩
        | true =>
        obtain ⟨so7, hs7⟩ := isObjB_true h7
        have hb7 : buildSection (Json.obj po) "accessibility" accessibilityDefaults
            = .ok (Json.obj (dictUpdate (getFieldDefaults so7 accessibilityDefaults) so7)) :=
          buildSection_obj accessibilityDefaults hs7
        cases h8 : isObjB (secObj po "risk") with
        | false =>
          exact ⟨by simp [normalize_identity, normalizeObjBody, pyTruthy, isObjB_obj, List.isEmpty_cons, isOkB,
              normalizeSucceedsOn, secOk_obj, hpo, hs1, hs2, hs3, hs4, hs5, hs6, hs7, h8,
              hb1, hb2, hb3, hb4, hb5, hb6, hb7, buildSection_not_obj h8,
              Bind.bind, Except.bind, Pure.pure, Except.pure],
            by simp [normalize_identity, normalizeObjBody, pyTruthy, isObjB_obj, List.isEmpty_cons, hpo,
              hb1, hb2, hb3, hb4, hb5, hb6, hb7, buildSection_not_obj h8,
              Bind.bind, Except.bind, Pure.pure, Except.pure]⟩
        | true =>
        obtain ⟨so8, hs8⟩ := isObjB_true h8
        have hb8 : buildSection (Json.obj po) "risk" riskDefaults
            = .ok (Json.obj (dictUpdate (getFieldDefaults so8 riskDefaults) so8)) :=
          buildSection_obj riskDefaults hs8
        cases hbv : isObjB ((olookup (hd :: tl) "behaviors").getD (Json.obj [])) with
        | false =>
          exact ⟨by simp [normalize_identity, normalizeObjBody, pyTruthy, isObjB_obj, List.isEmpty_cons, isOkB,
              normalizeSucceedsOn, secOk_obj, hpo, hs1, hs2, hs3, hs4, hs5, hs6, hs7, hs8, hbv,
              hb1, hb2, hb3, hb4, hb5, hb6, hb7, hb8, asObj_obj, asObj_not_obj hbv,
              Bind.bind, Except.bind, Pure.pure, Except.pure],
            by simp [normalize_identity, normalizeObjBody, pyTruthy, isObjB_obj, List.isEmpty_cons, hpo,
              hb1, hb2, hb3, hb4, hb5, hb6, hb7, hb8, asObj_obj, asObj_not_obj hbv,
              Bind.bind, Except.bind, Pure.pure, Except.pure]⟩
        | true =>
          obtain ⟨bo, hbo⟩ := isObjB_true hbv
          exact ⟨by simp [normalize_identity, normalizeObjBody, pyTruthy, isObjB_obj, List.isEmpty_cons, isOkB,
              normalizeSucceedsOn, secOk_obj, hpo, hs1, hs2, hs3, hs4, hs5, hs6, hs7, hs8, hbo,
              hb1, hb2, hb3, hb4, hb5, hb6, hb7, hb8, asObj_obj,
              Bind.bind, Except.bind, Pure.pure, Except.pure],
            by simp [normalize_identity, normalizeObjBody, pyTruthy, isObjB_obj, List.isEmpty_cons, hpo, hbo,
              hb1, hb2, hb3, hb4, hb5, hb6, hb7, hb8, asObj_obj,
              Bind.bind, Except.bind, Pure.pure, Except.pure]⟩
  all_goals
    exact ⟨by simp [normalize_identity, normalizeObjBody, pyTruthy, isObjB, isOkB, normalizeSucceedsOn],
      by simp [normalize_identity, normalizeObjBody, pyTruthy, isObjB]⟩

/-! ### Association-list lemmas for the normalizer's dict operations -/

theorem insertKV_ne_nil (l : Obj) (k : String) (v : Json) : insertKV l k v ≠ [] := by
  cases l with
  | nil => simp [insertKV]
  | cons hd tl =>
    unfold insertKV
    split <;> simp

theorem olookup_insertKV_self (l : Obj) (k : String) (v : Json) :
    olookup (insertKV l k v) k = some v := by
  induction l with
  | nil => simp [insertKV, olookup]
  | cons hd tl ih =>
    unfold insertKV
    by_cases hk : hd.1 = k
    · simp [hk, olookup]
    · simp [hk, olookup, ih]

theorem olookup_insertKV_ne (l : Obj) {k' k : String} (v : Json) (h : k' ≠ k) :
    olookup (insertKV l k' v) k = olookup l k := by
  induction l with
  | nil => simp [insertKV, olookup, h]
  | cons hd tl ih =>
    unfold insertKV
    by_cases hk : hd.1 = k'
    · simp [hk, olookup, h, Ne.symm h]
    · simp only [if_neg hk, olookup]
      by_cases hk2 : hd.1 = k
      · simp [hk2]
      · simp [hk2, ih]

theorem insertKV_lookup_eq {l : Obj} {k : String} {v : Json}
    (h : olookup l k = some v) : insertKV l k v = l := by
  induction l with
  | nil => simp [olookup] at h
  | cons hd tl ih =>
    unfold insertKV
    by_cases hk : hd.1 = k
    · rw [if_pos hk]
      rw [olookup, if_pos hk] at h
      obtain ⟨k1, v1⟩ := hd
      simp at hk
      simp [hk] at h ⊢
      exact h.symm
    · rw [if_neg hk]
      rw [olookup, if_neg hk] at h
      rw [ih h]

theorem mem_okeys_iff {l : Obj} {k : String} : k ∈ okeys l ↔ (olookup l k).isSome := by
  induction l with
  | nil => simp [okeys, olookup]
  | cons hd tl ih =>
    simp only [okeys, List.map_cons, List.mem_cons]
    by_cases hk : hd.1 = k
    · simp [olookup, hk]
    · rw [olookup, if_neg hk]
      simp only [okeys] at ih
      rw [← ih]
      constructor
      · rintro (h | h)
        · exact absurd h.symm hk
        · exact h
      · exact fun h => Or.inr h

theorem okeys_insertKV_mem {l : Obj} {k : String} (v : Json) (h : k ∈ okeys l) :
    okeys (insertKV l k v) = okeys l := by
  induction l with
  | nil => simp [okeys] at h
  | cons hd tl ih =>
    unfold insertKV
    by_cases hk : hd.1 = k
    · simp [okeys, hk]
    · rw [if_neg hk]
      simp only [okeys, List.map_cons, List.mem_cons] at h
      rcases h with h | h
      · exact absurd h.symm hk
      · have := ih (by simpa [okeys] using h)
        simp only [okeys, List.map_cons] at this ⊢
        rw [this]

theorem insertKV_append {l : Obj} {k : String} (v : Json) (h : k ∉ okeys l) :
    insertKV l k v = l ++ [(k, v)] := by
  induction l with
  | nil => simp [insertKV]
  | cons hd tl ih =>
    simp only [okeys, List.map_cons, List.mem_cons] at h
    push_neg at h
    unfold insertKV
    rw [if_neg (fun hc => h.1 hc.symm), ih (by simpa [okeys] using h.2)]
    simp

theorem nodup_insertKV {l : Obj} {k : String} {v : Json} (h : (okeys l).Nodup) :
    (okeys (insertKV l k v)).Nodup := by
  by_cases hm : k ∈ okeys l
  · rw [okeys_insertKV_mem v hm]; exact h
  · rw [insertKV_append v hm]
    rw [show okeys (l ++ [(k, v)]) = okeys l ++ [k] from by simp [okeys]]
    refine List.Nodup.append h (List.nodup_singleton k) ?_
    intro x hx hx2
    rw [List.mem_singleton] at hx2
    subst hx2
    exact hm hx

theorem nodup_dictUpdate {base : Obj} (m : Obj) (h : (okeys base).Nodup) :
    (okeys (dictUpdate base m)).Nodup := by
  induction m generalizing base with
  | nil => exact h
  | cons hd tl ih =>
    rw [show dictUpdate base (hd :: tl) = dictUpdate (insertKV base hd.1 hd.2) tl from rfl]
    exact ih (nodup_insertKV h)

theorem olookup_dictUpdate_not_mem {base m : Obj} {k : String} (h : k ∉ okeys m) :
    olookup (dictUpdate base m) k = olookup base k := by
  induction m generalizing base with
  | nil => rfl
  | cons hd tl ih =>
    simp only [okeys, List.map_cons, List.mem_cons] at h
    push_neg at h
    rw [show dictUpdate base (hd :: tl) = dictUpdate (insertKV base hd.1 hd.2) tl from rfl]
    rw [ih (by simpa [okeys] using h.2)]
    exact olookup_insertKV_ne base hd.2 (fun hc => h.1 hc.symm)

theorem olookup_dictUpdate_mem {base m : Obj} {k : String} (hm : (okeys m).Nodup)
    (h : k ∈ okeys m) : olookup (dictUpdate base m) k = olookup m k := by
  induction m generalizing base with
  | nil => simp [okeys] at h
  | cons hd tl ih =>
    simp only [okeys, List.map_cons, List.mem_cons] at h
    simp only [okeys, List.map_cons, List.nodup_cons] at hm
    rw [show dictUpdate base (hd :: tl) = dictUpdate (insertKV base hd.1 hd.2) tl from rfl]
    by_cases htl : k ∈ okeys tl
    · rw [ih hm.2 htl]
      have hk : hd.1 ≠ k := by
        intro hkk
        exact hm.1 (by simpa [okeys, hkk] using htl)
      simp [olookup, hk]
    · rcases h with h | h
      · rw [olookup_dictUpdate_not_mem htl, h, olookup_insertKV_self]
        simp [olookup]
      · exact absurd (by simpa [okeys] using h) htl

theorem dictUpdate_cons {m : Obj} {k : String} {v : Json} {bt : Obj}
    (h : k ∉ okeys m) : dictUpdate ((k, v) :: bt) m = (k, v) :: dictUpdate bt m := by
  induction m generalizing bt v with
  | nil => rfl
  | cons hd tl ih =>
    simp only [okeys, List.map_cons, List.mem_cons] at h
    push_neg at h
    rw [show dictUpdate ((k, v) :: bt) (hd :: tl)
        = dictUpdate (insertKV ((k, v) :: bt) hd.1 hd.2) tl from rfl]
    have hstep : insertKV ((k, v) :: bt) hd.1 hd.2
        = if k = hd.1 then (k, hd.2) :: bt else (k, v) :: insertKV bt hd.1 hd.2 := rfl
    rw [hstep, if_neg h.1]
    rw [ih (by simpa [okeys] using h.2)]
    rfl

theorem dictUpdate_keys_eq {Q : Obj} : ∀ {base2 : Obj}, okeys base2 = okeys Q →
    (okeys Q).Nodup → dictUpdate base2 Q = Q := by
  induction Q with
  | nil =>
    intro base2 hk _
    simp only [okeys, List.map_nil, List.map_eq_nil_iff] at hk
    subst hk; rfl
  | cons hd tl ih =>
    intro base2 hk hn
    cases base2 with
    | nil => simp [okeys] at hk
    | cons b2 bt =>
      simp only [okeys, List.map_cons, List.cons.injEq] at hk
      simp only [okeys, List.map_cons, List.nodup_cons] at hn
      rw [show dictUpdate (b2 :: bt) (hd :: tl)
          = dictUpdate (insertKV (b2 :: bt) hd.1 hd.2) tl from rfl]
      have hstep : insertKV (b2 :: bt) hd.1 hd.2
          = if b2.1 = hd.1 then (b2.1, hd.2) :: bt else b2 :: insertKV bt hd.1 hd.2 := rfl
      rw [hstep, if_pos hk.1]
      rw [hk.1]
      rw [dictUpdate_cons (by simpa [okeys] using hn.1)]
      rw [ih hk.2 hn.2]

theorem dictUpdate_disjoint {E : Obj} : ∀ {A : Obj}, (∀ x ∈ okeys E, x ∉ okeys A) →
    (okeys E).Nodup → dictUpdate A E = A ++ E := by
  induction E with
  | nil => intro A _ _; simp [dictUpdate]
  | cons hd tl ih =>
    intro A hdis hn
    simp only [okeys, List.map_cons, List.nodup_cons] at hn
    have hdA : hd.1 ∉ okeys A := hdis hd.1 (by simp [okeys])
    rw [show dictUpdate A (hd :: tl) = dictUpdate (insertKV A hd.1 hd.2) tl from rfl]
    rw [insertKV_append hd.2 hdA]
    have hdis2 : ∀ x ∈ okeys tl, x ∉ okeys (A ++ [(hd.1, hd.2)]) := by
      intro x hx
      have hxmem : x ∈ okeys (hd :: tl) := by
        simp only [okeys, List.map_cons, List.mem_cons]
        exact Or.inr (by simpa [okeys] using hx)
      rw [show okeys (A ++ [(hd.1, hd.2)]) = okeys A ++ [hd.1] from by simp [okeys]]
      intro hmem
      rcases List.mem_append.1 hmem with hA | hone
      · exact hdis x hxmem hA
      · rw [List.mem_singleton] at hone
        rw [hone] at hx
        exact hn.1 (by simpa [okeys] using hx)
    rw [ih hdis2 hn.2]
    simp

theorem dictUpdate_split (base m1 m2 : Obj) :
    dictUpdate base (m1 ++ m2) = dictUpdate (dictUpdate base m1) m2 := by
  simp [dictUpdate, List.foldl_append]

theorem dictUpdate_prefix {base2 base : Obj} (hp : okeys base2 <+: okeys base)
    (hn : (okeys base).Nodup) : dictUpdate base2 base = base := by
  obtain ⟨t, ht⟩ := hp
  have hQE : base = base.take base2.length ++ base.drop base2.length :=
    (List.take_append_drop _ _).symm
  have hkQ : okeys (base.take base2.length) = okeys base2 := by
    rw [show okeys (base.take base2.length) = (okeys base).take base2.length from by
      simp [okeys, List.map_take]]
    rw [← ht]
    rw [show base2.length = (okeys base2).length from by simp [okeys]]
    exact List.take_left _ _
  have hkeys : okeys base = okeys (base.take base2.length) ++ okeys (base.drop base2.length) := by
    conv_lhs => rw [hQE]
    simp [okeys]
  have hnQ : (okeys (base.take base2.length)).Nodup := by
    rw [hkeys] at hn
    exact hn.of_append_left
  have hnE : (okeys (base.drop base2.length)).Nodup := by
    rw [hkeys] at hn
    exact hn.of_append_right
  have hdisj : ∀ x ∈ okeys (base.drop base2.length), x ∉ okeys (base.take base2.length) := by
    rw [hkeys] at hn
    intro x hx
    exact fun hq => (List.disjoint_of_nodup_append hn) hq hx
  conv_lhs => rw [hQE]
  rw [dictUpdate_split, dictUpdate_keys_eq hkQ.symm hnQ, dictUpdate_disjoint hdisj hnE]
  exact hQE.symm

theorem dictUpdate_idem (m : Obj) : ∀ {base2 base : Obj}, okeys base2 <+: okeys base →
    (okeys base).Nodup → dictUpdate base2 (dictUpdate base m) = dictUpdate base m := by
  induction m with
  | nil =>
    intro base2 base hp hn
    exact dictUpdate_prefix hp hn
  | cons hd tl ih =>
    intro base2 base hp hn
    rw [show dictUpdate base (hd :: tl) = dictUpdate (insertKV base hd.1 hd.2) tl from rfl]
    by_cases hm : hd.1 ∈ okeys base
    · exact ih (by rw [okeys_insertKV_mem hd.2 hm]; exact hp)
        (by rw [okeys_insertKV_mem hd.2 hm]; exact hn)
    · have hins : okeys (insertKV base hd.1 hd.2) = okeys base ++ [hd.1] := by
        rw [insertKV_append hd.2 hm]; simp [okeys]
      refine ih ?_ ?_
      · rw [hins]; exact hp.trans (List.prefix_append _ _)
      · rw [hins]
        refine List.Nodup.append hn (List.nodup_singleton _) ?_
        intro x hx hx2
        rw [List.mem_singleton] at hx2
        subst hx2
        exact hm hx

theorem dictUpdate_nil_self {m : Obj} (hn : (okeys m).Nodup) : dictUpdate [] m = m := by
  have h := @dictUpdate_disjoint m [] (fun x _ => by simp [okeys]) hn
  simpa using h

theorem buildSection_obj_ok_inv {po : Obj} {n : String} {d : Obj} {r : Json}
    (h : buildSection (Json.obj po) n d = .ok r) :
    ∃ so, secObj po n = Json.obj so
      ∧ r = Json.obj (dictUpdate (getFieldDefaults so d) so) := by
  have hm : buildSection (Json.obj po) n d
      = (match secObj po n with
         | Json.obj so => Except.ok (Json.obj (dictUpdate (getFieldDefaults so d) so))
         | _ => Except.error PyErr.attributeError) := rfl
  rw [hm] at h
  rcases hs : secObj po n <;> rw [hs] at h
  case obj so => exact ⟨so, rfl, (Except.ok.inj h).symm⟩
  all_goals exact Except.noConfusion h

theorem asObj_ok_inv {p : Json} {o : Obj} (h : asObj p = .ok o) : p = Json.obj o := by
  cases p
  case obj o2 => exact congrArg Json.obj (Except.ok.inj h)
  all_goals exact Except.noConfusion h

theorem isEmpty_false_of_ne_nil {l : Obj} (h : l ≠ []) : l.isEmpty = false := by
  cases l with
  | nil => exact absurd rfl h
  | cons hd tl => rfl

theorem secObj_dictUpdate (built : Obj) {po : Obj} {n : String} {s bn : Obj}
    (hnd : (okeys po).Nodup) (hso : secObj po n = Json.obj s)
    (hb : olookup built n = some (Json.obj bn)) :
    ∃ s2, secObj (dictUpdate built po) n = Json.obj s2 := by
  by_cases hm : n ∈ okeys po
  · refine ⟨s, ?_⟩
    unfold secObj at hso ⊢
    rw [olookup_dictUpdate_mem hnd hm]
    exact hso
  · refine ⟨bn, ?_⟩
    unfold secObj
    rw [olookup_dictUpdate_not_mem hm, hb]
    rfl

/-- Claim C3: normalization is idempotent.  For any value `j` (in particular
any mapping; `prefsWF` is the representation side-condition that the
`preferences` mapping carries no duplicate key, which every Python dict
satisfies), composing `normalize_identity` with itself in the exception
monad gives `normalize_identity` itself: a failing input keeps failing
identically, and a normalized document re-normalizes to exactly itself —
every field already present with an explicit value is preserved. -/
theorem c3_normalize_idempotent :
    ∀ j : Json, prefsWF j →
      (normalize_identity j >>= normalize_identity) = normalize_identity j := by
  intro j hwf
  cases hn : normalize_identity j with
  | error e => rfl
  | ok r =>
    show normalize_identity r = .ok r
    cases j
    case obj o =>
      cases o with
      | nil => simp [normalize_identity, pyTruthy, isObjB] at hn
      | cons hd tl =>
        replace hn : normalizeObjBody (hd :: tl) = .ok r := hn
        unfold normalizeObjBody at hn
        obtain ⟨uiV, hb1, hn⟩ := bind_ok hn
        obtain ⟨iaV, hb2, hn⟩ := bind_ok hn
        obtain ⟨auV, hb3, hn⟩ := bind_ok hn
        obtain ⟨ntV, hb4, hn⟩ := bind_ok hn
        obtain ⟨ctV, hb5, hn⟩ := bind_ok hn
        obtain ⟨pvV, hb6, hn⟩ := bind_ok hn
        obtain ⟨acV, hb7, hn⟩ := bind_ok hn
        obtain ⟨rkV, hb8, hn⟩ := bind_ok hn
        obtain ⟨poX, hpX, hn⟩ := bind_ok hn
        obtain ⟨bo, hbX, hn⟩ := bind_ok hn
        have hr := (Except.ok.inj hn).symm
        subst hr
        have hpo : (olookup (hd :: tl) "preferences").getD (Json.obj []) = Json.obj poX :=
          asObj_ok_inv hpX
        rw [hpo] at hb1 hb2 hb3 hb4 hb5 hb6 hb7 hb8
        obtain ⟨so1, hs1, hv1⟩ := buildSection_obj_ok_inv hb1
        obtain ⟨so2, hs2, hv2⟩ := buildSection_obj_ok_inv hb2
        obtain ⟨so3, hs3, hv3⟩ := buildSection_obj_ok_inv hb3
        obtain ⟨so4, hs4, hv4⟩ := buildSection_obj_ok_inv hb4
        obtain ⟨so5, hs5, hv5⟩ := buildSection_obj_ok_inv hb5
        obtain ⟨so6, hs6, hv6⟩ := buildSection_obj_ok_inv hb6
        obtain ⟨so7, hs7, hv7⟩ := buildSection_obj_ok_inv hb7
        obtain ⟨so8, hs8, hv8⟩ := buildSection_obj_ok_inv hb8
        subst hv1 hv2 hv3 hv4 hv5 hv6 hv7 hv8
        have hbo : (olookup (hd :: tl) "behaviors").getD (Json.obj []) = Json.obj bo :=
          asObj_ok_inv hbX
        have hnd : (okeys poX).Nodup := by
          have hwf2 : (match olookup (hd :: tl) "preferences" with
              | some (Json.obj po) => (okeys po).Nodup
              | _ => True) := hwf
          rcases hol : olookup (hd :: tl) "preferences" with - | x
          · rw [hol] at hpo
            simp only [Option.getD_none, Json.obj.injEq] at hpo
            subst hpo
            simp [okeys]
          · rw [hol] at hwf2 hpo
            simp only [Option.getD_some] at hpo
            rw [hpo] at hwf2
            exact hwf2
        set built2 :=
          [("ui", Json.obj (dictUpdate (getFieldDefaults so1 uiDefaults) so1)),
           ("interaction", Json.obj (dictUpdate (getFieldDefaults so2 interactionDefaults) so2)),
           ("automation", Json.obj (dictUpdate (getFieldDefaults so3 automationDefaults) so3)),
           ("notifications", Json.obj (dictUpdate (getFieldDefaults so4 notificationsDefaults) so4)),
           ("content", Json.obj (dictUpdate (getFieldDefaults so5 contentDefaults) so5)),
           ("privacy", Json.obj (dictUpdate (getFieldDefaults so6 privacyDefaults) so6)),
           ("accessibility", Json.obj (dictUpdate (getFieldDefaults so7 accessibilityDefaults) so7)),
           ("risk", Json.obj (dictUpdate (getFieldDefaults so8 riskDefaults) so8))] with hbuilt2
        set P := dictUpdate built2 poX with hPdef
        set C := dictUpdate [] (hd :: tl) with hCdef
        set B := dictUpdate [] bo with hBdef
        set R := insertKV (insertKV C "preferences" (Json.obj P)) "behaviors" (Json.obj B)
          with hRdef
        have hRne : R ≠ [] := by rw [hRdef]; exact insertKV_ne_nil _ _ _
        have hRisEmpty : R.isEmpty = false := isEmpty_false_of_ne_nil hRne
        have hRpref : olookup R "preferences" = some (Json.obj P) := by
          rw [hRdef]
          rw [olookup_insertKV_ne _ _ (by decide)]
          exact olookup_insertKV_self _ _ _
        have hRbeh : olookup R "behaviors" = some (Json.obj B) := by
          rw [hRdef]
          exact olookup_insertKV_self _ _ _
        have hCnd : (okeys C).Nodup := by
          rw [hCdef]
          exact nodup_dictUpdate _ (by simp [okeys])
        have hRnd : (okeys R).Nodup := by
          rw [hRdef]
          exact nodup_insertKV (nodup_insertKV hCnd)
        have hBnd : (okeys B).Nodup := by
          rw [hBdef]
          exact nodup_dictUpdate _ (by simp [okeys])
        obtain ⟨s21, hs21⟩ := secObj_dictUpdate built2 hnd hs1 rfl
        obtain ⟨s22, hs22⟩ := secObj_dictUpdate built2 hnd hs2 rfl
        obtain ⟨s23, hs23⟩ := secObj_dictUpdate built2 hnd hs3 rfl
        obtain ⟨s24, hs24⟩ := secObj_dictUpdate built2 hnd hs4 rfl
        obtain ⟨s25, hs25⟩ := secObj_dictUpdate built2 hnd hs5 rfl
        obtain ⟨s26, hs26⟩ := secObj_dictUpdate built2 hnd hs6 rfl
        obtain ⟨s27, hs27⟩ := secObj_dictUpdate built2 hnd hs7 rfl
        obtain ⟨s28, hs28⟩ := secObj_dictUpdate built2 hnd hs8 rfl
        rw [← hPdef] at hs21 hs22 hs23 hs24 hs25 hs26 hs27 hs28
        have hbs1 := buildSection_obj uiDefaults hs21
        have hbs2 := buildSection_obj interactionDefaults hs22
        have hbs3 := buildSection_obj automationDefaults hs23
        have hbs4 := buildSection_obj notificationsDefaults hs24
        have hbs5 := buildSection_obj contentDefaults hs25
        have hbs6 := buildSection_obj privacyDefaults hs26
        have hbs7 := buildSection_obj accessibilityDefaults hs27
        have hbs8 := buildSection_obj riskDefaults hs28
        have hP2 :
            dictUpdate
              [("ui", Json.obj (dictUpdate (getFieldDefaults s21 uiDefaults) s21)),
               ("interaction",
                 Json.obj (dictUpdate (getFieldDefaults s22 interactionDefaults) s22)),
               ("automation",
                 Json.obj (dictUpdate (getFieldDefaults s23 automationDefaults) s23)),
               ("notifications",
                 Json.obj (dictUpdate (getFieldDefaults s24 notificationsDefaults) s24)),
               ("content", Json.obj (dictUpdate (getFieldDefaults s25 contentDefaults) s25)),
               ("privacy", Json.obj (dictUpdate (getFieldDefaults s26 privacyDefaults) s26)),
               ("accessibility",
                 Json.obj (dictUpdate (getFieldDefaults s27 accessibilityDefaults) s27)),
               ("risk", Json.obj (dictUpdate (getFieldDefaults s28 riskDefaults) s28))] P
            = P := by
          rw [hPdef, hbuilt2]
          refine dictUpdate_idem poX ?_ ?_
          · rw [show okeys
              [("ui", Json.obj (dictUpdate (getFieldDefaults s21 uiDefaults) s21)),
               ("interaction",
                 Json.obj (dictUpdate (getFieldDefaults s22 interactionDefaults) s22)),
               ("automation",
                 Json.obj (dictUpdate (getFieldDefaults s23 automationDefaults) s23)),
               ("notifications",
                 Json.obj (dictUpdate (getFieldDefaults s24 notificationsDefaults) s24)),
               ("content", Json.obj (dictUpdate (getFieldDefaults s25 contentDefaults) s25)),
               ("privacy", Json.obj (dictUpdate (getFieldDefaults s26 privacyDefaults) s26)),
               ("accessibility",
                 Json.obj (dictUpdate (getFieldDefaults s27 accessibilityDefaults) s27)),
               ("risk", Json.obj (dictUpdate (getFieldDefaults s28 riskDefaults) s28))]
              = ["ui", "interaction", "automation", "notifications", "content", "privacy",
                 "accessibility", "risk"] from by simp [okeys]]
            rw [show okeys
              [("ui", Json.obj (dictUpdate (getFieldDefaults so1 uiDefaults) so1)),
               ("interaction",
                 Json.obj (dictUpdate (getFieldDefaults so2 interactionDefaults) so2)),
               ("automation",
                 Json.obj (dictUpdate (getFieldDefaults so3 automationDefaults) so3)),
               ("notifications",
                 Json.obj (dictUpdate (getFieldDefaults so4 notificationsDefaults) so4)),
               ("content", Json.obj (dictUpdate (getFieldDefaults so5 contentDefaults) so5)),
               ("privacy", Json.obj (dictUpdate (getFieldDefaults so6 privacyDefaults) so6)),
               ("accessibility",
                 Json.obj (dictUpdate (getFieldDefaults so7 accessibilityDefaults) so7)),
               ("risk", Json.obj (dictUpdate (getFieldDefaults so8 riskDefaults) so8))]
              = ["ui", "interaction", "automation", "notifications", "content", "privacy",
                 "accessibility", "risk"] from by simp [okeys]]
          · rw [show okeys
              [("ui", Json.obj (dictUpdate (getFieldDefaults so1 uiDefaults) so1)),
               ("interaction",
                 Json.obj (dictUpdate (getFieldDefaults so2 interactionDefaults) so2)),
               ("automation",
                 Json.obj (dictUpdate (getFieldDefaults so3 automationDefaults) so3)),
               ("notifications",
                 Json.obj (dictUpdate (getFieldDefaults so4 notificationsDefaults) so4)),
               ("content", Json.obj (dictUpdate (getFieldDefaults so5 contentDefaults) so5)),
               ("privacy", Json.obj (dictUpdate (getFieldDefaults so6 privacyDefaults) so6)),
               ("accessibility",
                 Json.obj (dictUpdate (getFieldDefaults so7 accessibilityDefaults) so7)),
               ("risk", Json.obj (dictUpdate (getFieldDefaults so8 riskDefaults) so8))]
              = ["ui", "interaction", "automation", "notifications", "content", "privacy",
                 "accessibility", "risk"] from by simp [okeys]]
            decide
        have hB2 : dictUpdate [] B = B := dictUpdate_nil_self hBnd
        have hR0 : dictUpdate [] R = R := dictUpdate_nil_self hRnd
        have hI1 : insertKV R "preferences" (Json.obj P) = R := insertKV_lookup_eq hRpref
        have hI2 : insertKV R "behaviors" (Json.obj B) = R := insertKV_lookup_eq hRbeh
        simp only [normalize_identity, normalizeObjBody, pyTruthy, isObjB_obj, hRisEmpty,
          Bool.not_false, Bool.and_true, hRpref, Option.getD_some, hbs1, hbs2, hbs3, hbs4,
          hbs5, hbs6, hbs7, hbs8, asObj_obj, hRbeh, hP2, hB2, hR0, hI1, hI2,
          Bind.bind, Except.bind, Pure.pure, Except.pure]
        simp
    all_goals simp [normalize_identity, pyTruthy, isObjB] at hn

/-- Witness for C3 at a concrete document with a caller-supplied `ui`
sub-section. -/
theorem c3_normalize_idempotent_witness :
    prefsWF (Json.obj [("preferences", Json.obj [("ui", Json.obj [("theme", Json.str "dark")])])]) ∧
    (normalize_identity
        (Json.obj [("preferences", Json.obj [("ui", Json.obj [("theme", Json.str "dark")])])])
      >>= normalize_identity
      = normalize_identity
        (Json.obj [("preferences", Json.obj [("ui", Json.obj [("theme", Json.str "dark")])])])) :=
  ⟨by simp [prefsWF, olookup, okeys],
   c3_normalize_idempotent _ (by simp [prefsWF, olookup, okeys])⟩

end PPP